import Mathlib

/-!
Shallow embedding of the nct6687 hwmon driver (src/nct6687.c).

The embedded controller is modelled as an oracle `readF : Nat → Nat → Nat`
giving the byte returned by the t-th logical register read at a given
address, together with a chronological trace of logical register writes.
Machine integer casts are modelled explicitly: `% 256` for u8, two's
complement reinterpretation for the C `(char)` and `(s16)` casts.
The bounded 1000-iteration poll loops of the fan-configuration handshake
are modelled by structural recursion on the remaining iteration count.
-/

namespace Nct6687

/-- Two's-complement reinterpretation of a byte, the C `(char)` cast used by
the temperature decode (x86 char is signed). -/
def toSigned8 (b : Nat) : Int :=
  if b < 128 then (b : Int) else (b : Int) - 256

/-- Two's-complement reinterpretation into a signed 16-bit value, the C
`(s16)` conversion applied when an int is stored into an `s16` variable. -/
def toS16 (x : Int) : Int := ((x + 32768) % 65536) - 32768

/-- Store of an int value into an unsigned 16-bit slot, the C `(u16)`
conversion. -/
def toU16 (x : Int) : Nat := (x % 65536).toNat

/-- enum kinds of the source. -/
inductive Kinds
  | nct6683
  | nct6686
  | nct6687
deriving DecidableEq

/-- enum nct6687_fan_config_type of the source. -/
inductive FanConfigType
  | default
  | msi_alt1
deriving DecidableEq

/-- struct nct6687_fan_config (labels are irrelevant to register traffic and
omitted). -/
structure NctFanConfig where
  reg_rpm : Nat
  reg_pwm : Nat
  reg_pwm_write : Nat
deriving DecidableEq

/-- nct6687_fan_config_default table of the source. -/
def nct6687_fan_config_default : List NctFanConfig :=
  [⟨0x140, 0x160, 0xA28⟩, ⟨0x142, 0x161, 0xA29⟩, ⟨0x144, 0x162, 0xA2A⟩,
   ⟨0x146, 0x163, 0xA2B⟩, ⟨0x148, 0x164, 0xA2C⟩, ⟨0x14A, 0x165, 0xA2D⟩,
   ⟨0x14C, 0x166, 0xA2E⟩, ⟨0x14E, 0x167, 0xA2F⟩]

/-- nct6687_fan_config_msi_alt table of the source. -/
def nct6687_fan_config_msi_alt : List NctFanConfig :=
  [⟨0x140, 0x160, 0xA28⟩, ⟨0x142, 0x161, 0xA29⟩, ⟨0x15E, 0xE05, 0xC70⟩,
   ⟨0x15C, 0xE04, 0xC58⟩, ⟨0x15A, 0xE03, 0xC40⟩, ⟨0x158, 0xE02, 0xC28⟩,
   ⟨0x156, 0xE01, 0xC10⟩, ⟨0x154, 0xE00, 0xBF8⟩]

/-- nct6687_fan_config_active as a function of the selected variant. -/
def activeFanConfig : FanConfigType → List NctFanConfig
  | FanConfigType.default => nct6687_fan_config_default
  | FanConfigType.msi_alt1 => nct6687_fan_config_msi_alt

/-- NCT6687_REG_FAN_RPM(x) of the source. -/
def NCT6687_REG_FAN_RPM (ty : FanConfigType) (x : Nat) : Nat :=
  ((activeFanConfig ty).getD x ⟨0, 0, 0⟩).reg_rpm

/-- NCT6687_REG_PWM(x) of the source (pwm-readback register). -/
def NCT6687_REG_PWM (ty : FanConfigType) (x : Nat) : Nat :=
  ((activeFanConfig ty).getD x ⟨0, 0, 0⟩).reg_pwm

/-- NCT6687_REG_PWM_WRITE(x) of the source (pwm-write register). -/
def NCT6687_REG_PWM_WRITE (ty : FanConfigType) (x : Nat) : Nat :=
  ((activeFanConfig ty).getD x ⟨0, 0, 0⟩).reg_pwm_write

/-- NCT6687_REG_TEMP(x) of the source. -/
def NCT6687_REG_TEMP (x : Nat) : Nat := 0x100 + x * 2

/-- NCT6687_REG_VOLTAGE(x) of the source. -/
def NCT6687_REG_VOLTAGE (x : Nat) : Nat := 0x120 + x * 2

/-- NCT6687_REG_FAN_CTRL_MODE(x) of the source: the argument is ignored,
the macro expands to the constant 0xA00. -/
def NCT6687_REG_FAN_CTRL_MODE (x : Nat) : Nat := 0xA00

/-- NCT6687_REG_FAN_PWM_COMMAND(x) of the source: the argument is ignored,
the macro expands to the constant 0xA01. -/
def NCT6687_REG_FAN_PWM_COMMAND (x : Nat) : Nat := 0xA01

def NCT6687_FAN_CFG_REQ : Nat := 0x80
def NCT6687_FAN_CFG_DONE : Nat := 0x40
def NCT6687_REG_FAN_ENGINE_STS : Nat := 0xCF8
def NCT6687_FAN_CFG_PHASE : Nat := 0x08
def NCT6687_FAN_CFG_INVALID : Nat := 0x10
def NCT6687_FAN_CFG_CHECK_DONE : Nat := 0x20
def NCT6687_FAN_CFG_LOCK : Nat := 0x40
def NCT6687_FIRST_SYSTEM_FAN_INDEX : Nat := 2
def NCT6687_NUM_REG_TEMP : Nat := 7
def NCT6687_NUM_REG_FAN : Nat := 8
def NCT6687_NUM_REG_PWM : Nat := 8
def NCT6687_FAN_CURVE_POINTS : Nat := 7
def NCT6687_FAN_CURVE_POINT_SIZE : Nat := 2

/-- struct voltage_reg (label omitted). -/
structure VoltageReg where
  reg : Nat
  multiplier : Int

/-- nct6687_voltage_definition table of the source, in order. -/
def nct6687_voltage_definition : List VoltageReg :=
  [⟨0, 12⟩, ⟨1, 5⟩, ⟨11, 1⟩, ⟨2, 1⟩, ⟨4, 1⟩, ⟨9, 1⟩, ⟨10, 1⟩,
   ⟨3, 2⟩, ⟨5, 1⟩, ⟨6, 1⟩, ⟨7, 1⟩, ⟨8, 1⟩, ⟨12, 1⟩, ⟨13, 1⟩]

def NCT6687_NUM_REG_VOLTAGE : Nat := 14

/-- Module-level configuration read by the core: active fan table variant,
the msi_fan_brute_force flag and the `manual` voltage flag. -/
structure Config where
  fanType : FanConfigType
  bruteForce : Bool
  manualVoltage : Bool

/-- The embedded-controller interface: `readF t a` is the byte produced by
the t-th logical register read when it targets address `a` (the device is an
arbitrary environment, reads are sequenced by the counter `t`); `writes` is
the chronological list of (address, value) logical register writes. -/
structure EC where
  readF : Nat → Nat → Nat
  t : Nat
  writes : List (Nat × Nat)

/-- nct6687_read: one logical register read (returns a byte). -/
def ecRead (ec : EC) (address : Nat) : Nat × EC :=
  (ec.readF ec.t address % 256, { ec with t := ec.t + 1 })

/-- nct6687_write: one logical register write. -/
def ecWrite (ec : EC) (address value : Nat) : EC :=
  { ec with writes := ec.writes ++ [(address, value)] }

/-- Pointwise update of a channel-indexed series (array store). -/
def updFn {α : Type} (f : Nat → α) (i : Nat) (v : α) : Nat → α :=
  fun j => if j = i then v else f j

/-- struct nct6687_data: the driver's cached state (jiffies modelled as Nat,
register series as channel-indexed functions). -/
structure DevData where
  kind : Kinds
  valid : Bool
  last_updated : Nat
  voltageCur : Nat → Int
  voltageMin : Nat → Int
  voltageMax : Nat → Int
  tempCur : Nat → Int
  tempMin : Nat → Int
  tempMax : Nat → Int
  rpmCur : Nat → Nat
  rpmMin : Nat → Nat
  rpmMax : Nat → Nat
  pwm : Nat → Nat
  pwm_enable : Nat → Nat
  initialFanControlMode : Nat → Nat
  initialFanPwmCommand : Nat → Nat
  restoreRequired : Nat → Bool
  hwm_cfg : Nat

/-- First poll loop of start_fan_cfg_update: wait until the config phase is
done and the config request bit is clear.  The C condition
`!(read(STS) & PHASE) && !(read(CMD) & REQ)` short-circuits, so the command
register is only read when the PHASE bit is clear.  Returns whether the loop
broke within the given remaining iteration budget. -/
def sfcuLoop1 (fan : Nat) : Nat → EC → Bool × EC
  | 0, ec => (false, ec)
  | n + 1, ec =>
    let (s, ec) := ecRead ec NCT6687_REG_FAN_ENGINE_STS
    if s &&& NCT6687_FAN_CFG_PHASE = 0 then
      let (c, ec) := ecRead ec (NCT6687_REG_FAN_PWM_COMMAND fan)
      if c &&& NCT6687_FAN_CFG_REQ = 0 then (true, ec) else sfcuLoop1 fan n ec
    else sfcuLoop1 fan n ec

/-- Second poll loop of start_fan_cfg_update: wait until the EC enters the
config phase and unlocks the register set (LOCK clear and PHASE set). -/
def sfcuLoop2 : Nat → EC → Bool × EC
  | 0, ec => (false, ec)
  | n + 1, ec =>
    let (s, ec) := ecRead ec NCT6687_REG_FAN_ENGINE_STS
    if s &&& NCT6687_FAN_CFG_LOCK = 0 ∧ s &&& NCT6687_FAN_CFG_PHASE ≠ 0 then (true, ec)
    else sfcuLoop2 n ec

/-- start_fan_cfg_update of the source.  Returns true on success and false
on timeout. -/
def start_fan_cfg_update (ec : EC) (fan : Nat) : Bool × EC :=
  let (engsts, ec) := ecRead ec NCT6687_REG_FAN_ENGINE_STS
  if engsts &&& NCT6687_FAN_CFG_LOCK = 0 ∧ engsts &&& NCT6687_FAN_CFG_PHASE ≠ 0 then
    (true, ec)
  else
    let (broke, ec) := sfcuLoop1 fan 1000 ec
    if broke = false then (false, ec)
    else
      let ec := ecWrite ec (NCT6687_REG_FAN_PWM_COMMAND fan) NCT6687_FAN_CFG_REQ
      sfcuLoop2 1000 ec

/-- Poll loop of finish_fan_cfg_update: wait until CHECK_DONE is observed;
carries the previously observed engine status so the final status inspected
after the loop matches the C variable `engsts`. -/
def finishLoop (prev : Nat) : Nat → EC → Nat × EC
  | 0, ec => (prev, ec)
  | n + 1, ec =>
    let (s, ec) := ecRead ec NCT6687_REG_FAN_ENGINE_STS
    if s &&& NCT6687_FAN_CFG_CHECK_DONE ≠ 0 then (s, ec) else finishLoop s n ec

/-- finish_fan_cfg_update of the source.  The post-loop status checks only
emit log warnings, so the observable effect is the register traffic. -/
def finish_fan_cfg_update (kind : Kinds) (ec : EC) (fan : Nat) : EC :=
  let (engsts, ec) := ecRead ec NCT6687_REG_FAN_ENGINE_STS
  if engsts &&& NCT6687_FAN_CFG_LOCK ≠ 0 ∨ engsts &&& NCT6687_FAN_CFG_PHASE = 0 then ec
  else
    let donecmd := if kind = Kinds.nct6683 then 0x00 else NCT6687_FAN_CFG_DONE
    let ec := ecWrite ec (NCT6687_REG_FAN_PWM_COMMAND fan) donecmd
    (finishLoop engsts 1000 ec).2

/-- The done code written by finish_fan_cfg_update for a given chip kind. -/
def donecmdOf (kind : Kinds) : Nat :=
  if kind = Kinds.nct6683 then 0x00 else NCT6687_FAN_CFG_DONE

/-- nct6687_write_all_curve: write the value to register0 of all 7 curve
points (stride 2) starting at the channel's pwm-write register. -/
def nct6687_write_all_curve (ec : EC) (base_address value : Nat) : EC :=
  (List.range NCT6687_FAN_CURVE_POINTS).foldl
    (fun ec i => ecWrite ec (base_address + i * NCT6687_FAN_CURVE_POINT_SIZE) value) ec

/-- nct6687_get_pwm_enable: 1 (manual_mode) if the channel's bit is set in
the control-mode register, 99 (firmware_mode) otherwise. -/
def nct6687_get_pwm_enable (ec : EC) (index : Nat) : Nat × EC :=
  let (m, ec) := ecRead ec (NCT6687_REG_FAN_CTRL_MODE index)
  (if m &&& (1 <<< index) ≠ 0 then 1 else 99, ec)

/-- nct6687_save_fan_control of the source: lazily snapshot the channel's
control-mode bit and PWM-command byte the first time the channel is touched. -/
def nct6687_save_fan_control (d : DevData) (ec : EC) (index : Nat) : DevData × EC :=
  if d.restoreRequired index = false then
    let (reg, ec) := ecRead ec (NCT6687_REG_FAN_CTRL_MODE index)
    let (pwm, ec) := ecRead ec (NCT6687_REG_FAN_PWM_COMMAND index)
    ({ d with
        initialFanControlMode := updFn d.initialFanControlMode index ((reg &&& (1 <<< index)) % 256),
        initialFanPwmCommand := updFn d.initialFanPwmCommand index pwm,
        restoreRequired := updFn d.restoreRequired index true }, ec)
  else (d, ec)

/-- store_pwm of the source.  `buf` is the parsed user input (`none` models a
kstrtoul failure).  Returns `Except.error ()` for the -EINVAL rejection,
which in the C code happens before the update lock is taken and before any
register access. -/
def store_pwm (cfg : Config) (d : DevData) (ec : EC) (index : Nat) (buf : Option Nat) :
    Except Unit (DevData × EC) :=
  match buf with
  | none => Except.error ()
  | some val =>
    if 255 < val ∨ NCT6687_NUM_REG_FAN ≤ index then Except.error ()
    else
      let (d, ec) := nct6687_save_fan_control d ec index
      let (mode, ec) := ecRead ec (NCT6687_REG_FAN_CTRL_MODE index)
      let bitMask := (1 <<< index) % 256
      let mode2 := (mode ||| bitMask) % 256
      let ec := ecWrite ec (NCT6687_REG_FAN_CTRL_MODE index) mode2
      let (ok, ec) := start_fan_cfg_update ec index
      let ec :=
        if ok then
          let ec :=
            if NCT6687_FIRST_SYSTEM_FAN_INDEX ≤ index ∧
               cfg.fanType = FanConfigType.msi_alt1 ∧ cfg.bruteForce = true then
              let (current_pwm, ec) := ecRead ec (NCT6687_REG_PWM cfg.fanType index)
              if current_pwm ≠ val then
                nct6687_write_all_curve ec (NCT6687_REG_PWM_WRITE cfg.fanType index) val
              else ec
            else ecWrite ec (NCT6687_REG_PWM_WRITE cfg.fanType index) val
          finish_fan_cfg_update d.kind ec index
        else ec
      let (p, ec) := ecRead ec (NCT6687_REG_PWM cfg.fanType index)
      let (pe, ec) := nct6687_get_pwm_enable ec index
      Except.ok ({ d with pwm := updFn d.pwm index p,
                          pwm_enable := updFn d.pwm_enable index pe }, ec)

/-- store_pwm_enable of the source. -/
def store_pwm_enable (d : DevData) (ec : EC) (index : Nat) (buf : Option Nat) :
    Except Unit (DevData × EC) :=
  if NCT6687_NUM_REG_FAN ≤ index then Except.error ()
  else
    match buf with
    | none => Except.error ()
    | some val =>
      if val ≠ 1 ∧ val ≠ 99 then Except.error ()
      else
        let (d, ec) := nct6687_save_fan_control d ec index
        let (mode, ec) := ecRead ec (NCT6687_REG_FAN_CTRL_MODE index)
        let bitMask := (1 <<< index) % 256
        let mode2 :=
          if val = 1 then (mode ||| bitMask) % 256
          else if val = 99 then (mode &&& (0xFF ^^^ bitMask)) % 256
          else mode
        let ec := ecWrite ec (NCT6687_REG_FAN_CTRL_MODE index) mode2
        Except.ok (d, ec)

/-- nct6687_restore_fan_control of the source. -/
def nct6687_restore_fan_control (cfg : Config) (d : DevData) (ec : EC) (index : Nat) :
    DevData × EC :=
  if d.restoreRequired index then
    let (mode, ec) := ecRead ec (NCT6687_REG_FAN_CTRL_MODE index)
    let bitMask := (1 <<< index) % 256
    let mode2 := ((mode &&& (0xFF ^^^ bitMask)) ||| d.initialFanControlMode index) % 256
    let ec := ecWrite ec (NCT6687_REG_FAN_CTRL_MODE index) mode2
    let (ok, ec) := start_fan_cfg_update ec index
    let ec :=
      if ok then
        let ec :=
          if NCT6687_FIRST_SYSTEM_FAN_INDEX ≤ index ∧
             cfg.fanType = FanConfigType.msi_alt1 ∧ cfg.bruteForce = true then
            nct6687_write_all_curve ec (NCT6687_REG_PWM_WRITE cfg.fanType index)
              (d.initialFanPwmCommand index)
          else
            ecWrite ec (NCT6687_REG_PWM_WRITE cfg.fanType index) (d.initialFanPwmCommand index)
        finish_fan_cfg_update d.kind ec index
      else ec
    ({ d with restoreRequired := updFn d.restoreRequired index false }, ec)
  else (d, ec)

/-- Loop combinator running `step` at indices 0, 1, …, n-1 in order. -/
def iterUp {α : Type} (step : α → Nat → α) (s : α) : Nat → α
  | 0 => s
  | n + 1 => step (iterUp step s n) n

/-- Temperature decode of nct6687_update_temperatures:
`(char)read * 1000 + 500 * ((next >> 7) & 1)`. -/
def tempDecode (b0 b1 : Nat) : Int :=
  toSigned8 b0 * 1000 + 500 * (((b1 >>> 7) &&& 1 : Nat) : Int)

/-- Temperature decode of nct6687_setup_temperatures:
`(char)read * 1000 + 5 * ((next >> 7) & 1)` (note the 5, not 500). -/
def setupTempDecode (b0 b1 : Nat) : Int :=
  toSigned8 b0 * 1000 + 5 * (((b1 >>> 7) &&& 1 : Nat) : Int)

/-- One iteration of the nct6687_update_temperatures loop. -/
def updTempChan (s : DevData × EC) (i : Nat) : DevData × EC :=
  let d := s.1
  let (b0, ec) := ecRead s.2 (NCT6687_REG_TEMP i)
  let (b1, ec) := ecRead ec (NCT6687_REG_TEMP i + 1)
  let temperature := tempDecode b0 b1
  ({ d with
      tempCur := updFn d.tempCur i temperature,
      tempMin := updFn d.tempMin i (min temperature (d.tempMin i)),
      tempMax := updFn d.tempMax i (max temperature (d.tempMax i)) }, ec)

/-- nct6687_update_temperatures of the source. -/
def nct6687_update_temperatures (d : DevData) (ec : EC) : DevData × EC :=
  iterUp updTempChan (d, ec) NCT6687_NUM_REG_TEMP

/-- One iteration of the nct6687_setup_temperatures loop (seeds min = max =
current). -/
def setupTempChan (s : DevData × EC) (i : Nat) : DevData × EC :=
  let d := s.1
  let (b0, ec) := ecRead s.2 (NCT6687_REG_TEMP i)
  let (b1, ec) := ecRead ec (NCT6687_REG_TEMP i + 1)
  let temperature := setupTempDecode b0 b1
  ({ d with
      tempCur := updFn d.tempCur i temperature,
      tempMin := updFn d.tempMin i temperature,
      tempMax := updFn d.tempMax i temperature }, ec)

/-- nct6687_setup_temperatures of the source. -/
def nct6687_setup_temperatures (d : DevData) (ec : EC) : DevData × EC :=
  iterUp setupTempChan (d, ec) NCT6687_NUM_REG_TEMP

/-- One iteration of the nct6687_update_voltage loop.  The intermediate
`high`, `low`, `value` s16 variables never exceed 4095 and cannot wrap; the
final store into `s16 voltage` can wrap and is modelled by `toS16`. -/
def updVoltChan (manualMode : Bool) (s : DevData × EC) (index : Nat) : DevData × EC :=
  let d := s.1
  let reg := if manualMode then index else (nct6687_voltage_definition.getD index ⟨0, 0⟩).reg
  let (hb, ec) := ecRead s.2 (NCT6687_REG_VOLTAGE reg)
  let (lb, ec) := ecRead ec (NCT6687_REG_VOLTAGE reg + 1)
  let high : Int := (hb : Int) * 16
  let low : Int := ((lb >>> 4 : Nat) : Int)
  let value : Int := low + high
  let voltage : Int :=
    toS16 (if manualMode then value
           else value * (nct6687_voltage_definition.getD index ⟨0, 0⟩).multiplier)
  ({ d with
      voltageCur := updFn d.voltageCur index voltage,
      voltageMin := updFn d.voltageMin index (min voltage (d.voltageMin index)),
      voltageMax := updFn d.voltageMax index (max voltage (d.voltageMax index)) }, ec)

/-- nct6687_update_voltage of the source. -/
def nct6687_update_voltage (cfg : Config) (d : DevData) (ec : EC) : DevData × EC :=
  iterUp (updVoltChan cfg.manualVoltage) (d, ec) NCT6687_NUM_REG_VOLTAGE

/-- One iteration of the nct6687_setup_voltages loop. -/
def setupVoltChan (manualMode : Bool) (s : DevData × EC) (index : Nat) : DevData × EC :=
  let d := s.1
  let reg := if manualMode then index else (nct6687_voltage_definition.getD index ⟨0, 0⟩).reg
  let (hb, ec) := ecRead s.2 (NCT6687_REG_VOLTAGE reg)
  let (lb, ec) := ecRead ec (NCT6687_REG_VOLTAGE reg + 1)
  let high : Int := (hb : Int) * 16
  let low : Int := ((lb >>> 4 : Nat) : Int)
  let value : Int := low + high
  let voltage : Int :=
    toS16 (if manualMode then value
           else value * (nct6687_voltage_definition.getD index ⟨0, 0⟩).multiplier)
  ({ d with
      voltageCur := updFn d.voltageCur index voltage,
      voltageMin := updFn d.voltageMin index voltage,
      voltageMax := updFn d.voltageMax index voltage }, ec)

/-- nct6687_setup_voltages of the source. -/
def nct6687_setup_voltages (cfg : Config) (d : DevData) (ec : EC) : DevData × EC :=
  iterUp (setupVoltChan cfg.manualVoltage) (d, ec) NCT6687_NUM_REG_VOLTAGE

/-- One iteration of the fan-rpm loop in nct6687_update_fans.  The source
stores the 16-bit big-endian read16 result into `s16 rmp` (two's-complement
reinterpretation) and then compares it, sign-extended, against the unsigned
u16 history entries before storing back into u16. -/
def updFanChan (ty : FanConfigType) (s : DevData × EC) (i : Nat) : DevData × EC :=
  let d := s.1
  let (hi, ec) := ecRead s.2 (NCT6687_REG_FAN_RPM ty i)
  let (lo, ec) := ecRead ec (NCT6687_REG_FAN_RPM ty i + 1)
  let rmp : Int := toS16 (((hi <<< 8) ||| lo : Nat) : Int)
  ({ d with
      rpmCur := updFn d.rpmCur i (toU16 rmp),
      rpmMin := updFn d.rpmMin i (toU16 (min rmp ((d.rpmMin i : Nat) : Int))),
      rpmMax := updFn d.rpmMax i (toU16 (max rmp ((d.rpmMax i : Nat) : Int))) }, ec)

/-- One iteration of the pwm loop in nct6687_update_fans. -/
def updPwmChan (ty : FanConfigType) (s : DevData × EC) (i : Nat) : DevData × EC :=
  let d := s.1
  let (p, ec) := ecRead s.2 (NCT6687_REG_PWM ty i)
  let (pe, ec) := nct6687_get_pwm_enable ec i
  ({ d with
      pwm := updFn d.pwm i p,
      pwm_enable := updFn d.pwm_enable i pe }, ec)

/-- nct6687_update_fans of the source: the rpm loop followed by the pwm
loop. -/
def nct6687_update_fans (ty : FanConfigType) (d : DevData) (ec : EC) : DevData × EC :=
  let s := iterUp (updFanChan ty) (d, ec) NCT6687_NUM_REG_FAN
  iterUp (updPwmChan ty) s NCT6687_NUM_REG_PWM

/-- One iteration of the nct6687_setup_fans loop (seeds the rpm series and
snapshots the initial control-mode bit; the source declares `u16 rpm` here,
so no sign reinterpretation happens on the setup path). -/
def setupFanChan (ty : FanConfigType) (s : DevData × EC) (i : Nat) : DevData × EC :=
  let d := s.1
  let (reg, ec) := ecRead s.2 (NCT6687_REG_FAN_CTRL_MODE i)
  let (hi, ec) := ecRead ec (NCT6687_REG_FAN_RPM ty i)
  let (lo, ec) := ecRead ec (NCT6687_REG_FAN_RPM ty i + 1)
  let rpm := (hi <<< 8) ||| lo
  ({ d with
      rpmCur := updFn d.rpmCur i rpm,
      rpmMin := updFn d.rpmMin i rpm,
      rpmMax := updFn d.rpmMax i rpm,
      initialFanControlMode := updFn d.initialFanControlMode i ((reg &&& (1 <<< i)) % 256),
      restoreRequired := updFn d.restoreRequired i false }, ec)

/-- nct6687_setup_fans of the source. -/
def nct6687_setup_fans (ty : FanConfigType) (d : DevData) (ec : EC) : DevData × EC :=
  iterUp (setupFanChan ty) (d, ec) NCT6687_NUM_REG_FAN

/-- nct6687_update_device of the source: refresh every series when the cache
is invalid or `time_after(jiffies, last_updated + HZ)` holds (a strict
comparison; jiffies wraparound is out of the model), otherwise no-op.
`hz` is the kernel tick rate HZ. -/
def nct6687_update_device (cfg : Config) (hz : Nat) (d : DevData) (ec : EC) (now : Nat) :
    DevData × EC :=
  if d.last_updated + hz < now ∨ d.valid = false then
    let (d, ec) := nct6687_update_voltage cfg d ec
    let (d, ec) := nct6687_update_temperatures d ec
    let (d, ec) := nct6687_update_fans cfg.fanType d ec
    ({ d with last_updated := now, valid := true }, ec)
  else (d, ec)

/-- nct6687_remove of the source: restore every fan channel. -/
def nct6687_remove (cfg : Config) (d : DevData) (ec : EC) : DevData × EC :=
  iterUp (fun s i => nct6687_restore_fan_control cfg s.1 s.2 i) (d, ec) NCT6687_NUM_REG_FAN

/-! Physical port-level model of the transport functions nct6687_read and
nct6687_write: the exact sequence of mutex and port operations each function
performs, in program order. -/

/-- One physical event of a transport call: taking or releasing EC_io_lock,
an outb to a port, or an inb from a port. -/
inductive PortEvent
  | acquire
  | release
  | out (port : Nat) (value : Nat)
  | inp (port : Nat)
deriving DecidableEq

def EC_SPACE_PAGE_REGISTER_OFFSET : Nat := 0x04
def EC_SPACE_INDEX_REGISTER_OFFSET : Nat := 0x05
def EC_SPACE_DATA_REGISTER_OFFSET : Nat := 0x06
def EC_SPACE_PAGE_SELECT : Nat := 0xFF

/-- The physical event sequence of nct6687_read: the source releases
EC_io_lock and only then performs the data-port inb_p. -/
def nct6687_read_events (base address : Nat) : List PortEvent :=
  [PortEvent.acquire,
   PortEvent.out (base + EC_SPACE_PAGE_REGISTER_OFFSET) EC_SPACE_PAGE_SELECT,
   PortEvent.out (base + EC_SPACE_PAGE_REGISTER_OFFSET) ((address >>> 8) % 256),
   PortEvent.out (base + EC_SPACE_INDEX_REGISTER_OFFSET) (address % 256),
   PortEvent.release,
   PortEvent.inp (base + EC_SPACE_DATA_REGISTER_OFFSET)]

/-- The physical event sequence of nct6687_write: all four port operations
happen between acquire and release. -/
def nct6687_write_events (base address value : Nat) : List PortEvent :=
  [PortEvent.acquire,
   PortEvent.out (base + EC_SPACE_PAGE_REGISTER_OFFSET) EC_SPACE_PAGE_SELECT,
   PortEvent.out (base + EC_SPACE_PAGE_REGISTER_OFFSET) ((address >>> 8) % 256),
   PortEvent.out (base + EC_SPACE_INDEX_REGISTER_OFFSET) (address % 256),
   PortEvent.out (base + EC_SPACE_DATA_REGISTER_OFFSET) (value % 256),
   PortEvent.release]

/-- Checks that every port operation in the trace happens while the lock is
held, tracking the lock state left to right. -/
def portOpsLockedFrom : Bool → List PortEvent → Bool
  | _, [] => true
  | _, PortEvent.acquire :: es => portOpsLockedFrom true es
  | _, PortEvent.release :: es => portOpsLockedFrom false es
  | held, PortEvent.out _ _ :: es => held && portOpsLockedFrom held es
  | held, PortEvent.inp _ :: es => held && portOpsLockedFrom held es

/-- All port operations of the trace are lock-protected (starting unlocked). -/
def portOpsLocked (es : List PortEvent) : Bool := portOpsLockedFrom false es

/-! Description helpers used only in theorem statements: the oracle bytes a
given update-loop iteration consumes, as a function of the oracle and the
read counter at loop entry. -/

/-- The temperature the update loop decodes for channel i when the loop
starts with read counter t0. -/
def tempDecodeAt (f : Nat → Nat → Nat) (t0 i : Nat) : Int :=
  tempDecode (f (t0 + 2 * i) (NCT6687_REG_TEMP i) % 256)
    (f (t0 + 2 * i + 1) (NCT6687_REG_TEMP i + 1) % 256)

/-- The temperature the setup loop decodes for channel i. -/
def setupTempDecodeAt (f : Nat → Nat → Nat) (t0 i : Nat) : Int :=
  setupTempDecode (f (t0 + 2 * i) (NCT6687_REG_TEMP i) % 256)
    (f (t0 + 2 * i + 1) (NCT6687_REG_TEMP i + 1) % 256)

/-- The voltage the update/setup loops decode for channel `index`. -/
def voltDecodeAt (manualMode : Bool) (f : Nat → Nat → Nat) (t0 index : Nat) : Int :=
  let reg := if manualMode then index else (nct6687_voltage_definition.getD index ⟨0, 0⟩).reg
  let hb := f (t0 + 2 * index) (NCT6687_REG_VOLTAGE reg) % 256
  let lb := f (t0 + 2 * index + 1) (NCT6687_REG_VOLTAGE reg + 1) % 256
  let value : Int := ((lb >>> 4 : Nat) : Int) + (hb : Int) * 16
  toS16 (if manualMode then value
         else value * (nct6687_voltage_definition.getD index ⟨0, 0⟩).multiplier)

/-- The raw 16-bit big-endian rpm reading the fan update loop assembles for
channel i. -/
def fanRawAt (ty : FanConfigType) (f : Nat → Nat → Nat) (t0 i : Nat) : Nat :=
  ((f (t0 + 2 * i) (NCT6687_REG_FAN_RPM ty i) % 256) <<< 8) |||
    (f (t0 + 2 * i + 1) (NCT6687_REG_FAN_RPM ty i + 1) % 256)

/-! Per-channel characterization of the refresh/setup loops. -/

theorem iterUp_temp_ec (d : DevData) (ec : EC) :
    ∀ n, (iterUp updTempChan (d, ec) n).2.readF = ec.readF ∧
      (iterUp updTempChan (d, ec) n).2.t = ec.t + 2 * n ∧
      (iterUp updTempChan (d, ec) n).2.writes = ec.writes
  | 0 => by simp [iterUp]
  | n + 1 => by
    obtain ⟨h1, h2, h3⟩ := iterUp_temp_ec d ec n
    simp only [iterUp, updTempChan, ecRead]
    refine ⟨h1, by simp [h2]; omega, h3⟩

theorem iterUp_temp_untouched (d : DevData) (ec : EC) :
    ∀ n, ∀ i, n ≤ i →
      (iterUp updTempChan (d, ec) n).1.tempCur i = d.tempCur i ∧
      (iterUp updTempChan (d, ec) n).1.tempMin i = d.tempMin i ∧
      (iterUp updTempChan (d, ec) n).1.tempMax i = d.tempMax i
  | 0, i, _ => by simp [iterUp]
  | n + 1, i, h => by
    obtain ⟨h1, h2, h3⟩ := iterUp_temp_untouched d ec n i (by omega)
    have hne : i ≠ n := by omega
    simp only [iterUp, updTempChan, ecRead, updFn]
    simp [hne, h1, h2, h3]

theorem iterUp_temp_at (d : DevData) (ec : EC) :
    ∀ n, ∀ i, i < n →
      (iterUp updTempChan (d, ec) n).1.tempCur i = tempDecodeAt ec.readF ec.t i ∧
      (iterUp updTempChan (d, ec) n).1.tempMin i =
        min (tempDecodeAt ec.readF ec.t i) (d.tempMin i) ∧
      (iterUp updTempChan (d, ec) n).1.tempMax i =
        max (tempDecodeAt ec.readF ec.t i) (d.tempMax i)
  | n + 1, i, h => by
    rcases Nat.lt_or_ge i n with hlt | hge
    · obtain ⟨h1, h2, h3⟩ := iterUp_temp_at d ec n i hlt
      have hne : i ≠ n := by omega
      simp only [iterUp, updTempChan, ecRead, updFn]
      simp [hne, h1, h2, h3]
    · have hi : i = n := by omega
      subst hi
      obtain ⟨hu1, hu2, hu3⟩ := iterUp_temp_untouched d ec i i (le_refl i)
      obtain ⟨he1, he2, he3⟩ := iterUp_temp_ec d ec i
      simp only [iterUp, updTempChan, ecRead, updFn]
      simp [he1, he2, hu1, hu2, hu3, tempDecodeAt]

theorem iterUp_setupTemp_ec (d : DevData) (ec : EC) :
    ∀ n, (iterUp setupTempChan (d, ec) n).2.readF = ec.readF ∧
      (iterUp setupTempChan (d, ec) n).2.t = ec.t + 2 * n ∧
      (iterUp setupTempChan (d, ec) n).2.writes = ec.writes
  | 0 => by simp [iterUp]
  | n + 1 => by
    obtain ⟨h1, h2, h3⟩ := iterUp_setupTemp_ec d ec n
    simp only [iterUp, setupTempChan, ecRead]
    refine ⟨h1, by simp [h2]; omega, h3⟩

theorem iterUp_setupTemp_untouched (d : DevData) (ec : EC) :
    ∀ n, ∀ i, n ≤ i →
      (iterUp setupTempChan (d, ec) n).1.tempCur i = d.tempCur i ∧
      (iterUp setupTempChan (d, ec) n).1.tempMin i = d.tempMin i ∧
      (iterUp setupTempChan (d, ec) n).1.tempMax i = d.tempMax i
  | 0, i, _ => by simp [iterUp]
  | n + 1, i, h => by
    obtain ⟨h1, h2, h3⟩ := iterUp_setupTemp_untouched d ec n i (by omega)
    have hne : i ≠ n := by omega
    simp only [iterUp, setupTempChan, ecRead, updFn]
    simp [hne, h1, h2, h3]

theorem iterUp_setupTemp_at (d : DevData) (ec : EC) :
    ∀ n, ∀ i, i < n →
      (iterUp setupTempChan (d, ec) n).1.tempCur i = setupTempDecodeAt ec.readF ec.t i ∧
      (iterUp setupTempChan (d, ec) n).1.tempMin i = setupTempDecodeAt ec.readF ec.t i ∧
      (iterUp setupTempChan (d, ec) n).1.tempMax i = setupTempDecodeAt ec.readF ec.t i
  | n + 1, i, h => by
    rcases Nat.lt_or_ge i n with hlt | hge
    · obtain ⟨h1, h2, h3⟩ := iterUp_setupTemp_at d ec n i hlt
      have hne : i ≠ n := by omega
      simp only [iterUp, setupTempChan, ecRead, updFn]
      simp [hne, h1, h2, h3]
    · have hi : i = n := by omega
      subst hi
      obtain ⟨he1, he2, he3⟩ := iterUp_setupTemp_ec d ec i
      simp only [iterUp, setupTempChan, ecRead, updFn]
      simp [he1, he2, setupTempDecodeAt]

theorem iterUp_volt_ec (m : Bool) (d : DevData) (ec : EC) :
    ∀ n, (iterUp (updVoltChan m) (d, ec) n).2.readF = ec.readF ∧
      (iterUp (updVoltChan m) (d, ec) n).2.t = ec.t + 2 * n ∧
      (iterUp (updVoltChan m) (d, ec) n).2.writes = ec.writes
  | 0 => by simp [iterUp]
  | n + 1 => by
    obtain ⟨h1, h2, h3⟩ := iterUp_volt_ec m d ec n
    simp only [iterUp, updVoltChan, ecRead]
    refine ⟨h1, by simp [h2]; omega, h3⟩

theorem iterUp_volt_untouched (m : Bool) (d : DevData) (ec : EC) :
    ∀ n, ∀ i, n ≤ i →
      (iterUp (updVoltChan m) (d, ec) n).1.voltageCur i = d.voltageCur i ∧
      (iterUp (updVoltChan m) (d, ec) n).1.voltageMin i = d.voltageMin i ∧
      (iterUp (updVoltChan m) (d, ec) n).1.voltageMax i = d.voltageMax i
  | 0, i, _ => by simp [iterUp]
  | n + 1, i, h => by
    obtain ⟨h1, h2, h3⟩ := iterUp_volt_untouched m d ec n i (by omega)
    have hne : i ≠ n := by omega
    simp only [iterUp, updVoltChan, ecRead, updFn]
    simp [hne, h1, h2, h3]

theorem iterUp_volt_at (m : Bool) (d : DevData) (ec : EC) :
    ∀ n, ∀ i, i < n →
      (iterUp (updVoltChan m) (d, ec) n).1.voltageCur i = voltDecodeAt m ec.readF ec.t i ∧
      (iterUp (updVoltChan m) (d, ec) n).1.voltageMin i =
        min (voltDecodeAt m ec.readF ec.t i) (d.voltageMin i) ∧
      (iterUp (updVoltChan m) (d, ec) n).1.voltageMax i =
        max (voltDecodeAt m ec.readF ec.t i) (d.voltageMax i)
  | n + 1, i, h => by
    rcases Nat.lt_or_ge i n with hlt | hge
    · obtain ⟨h1, h2, h3⟩ := iterUp_volt_at m d ec n i hlt
      have hne : i ≠ n := by omega
      simp only [iterUp, updVoltChan, ecRead, updFn]
      simp [hne, h1, h2, h3]
    · have hi : i = n := by omega
      subst hi
      obtain ⟨hu1, hu2, hu3⟩ := iterUp_volt_untouched m d ec i i (le_refl i)
      obtain ⟨he1, he2, he3⟩ := iterUp_volt_ec m d ec i
      simp only [iterUp, updVoltChan, ecRead, updFn]
      simp [he1, he2, hu1, hu2, hu3, voltDecodeAt]

theorem iterUp_setupVolt_ec (m : Bool) (d : DevData) (ec : EC) :
    ∀ n, (iterUp (setupVoltChan m) (d, ec) n).2.readF = ec.readF ∧
      (iterUp (setupVoltChan m) (d, ec) n).2.t = ec.t + 2 * n ∧
      (iterUp (setupVoltChan m) (d, ec) n).2.writes = ec.writes
  | 0 => by simp [iterUp]
  | n + 1 => by
    obtain ⟨h1, h2, h3⟩ := iterUp_setupVolt_ec m d ec n
    simp only [iterUp, setupVoltChan, ecRead]
    refine ⟨h1, by simp [h2]; omega, h3⟩

theorem iterUp_setupVolt_at (m : Bool) (d : DevData) (ec : EC) :
    ∀ n, ∀ i, i < n →
      (iterUp (setupVoltChan m) (d, ec) n).1.voltageCur i = voltDecodeAt m ec.readF ec.t i ∧
      (iterUp (setupVoltChan m) (d, ec) n).1.voltageMin i = voltDecodeAt m ec.readF ec.t i ∧
      (iterUp (setupVoltChan m) (d, ec) n).1.voltageMax i = voltDecodeAt m ec.readF ec.t i
  | n + 1, i, h => by
    rcases Nat.lt_or_ge i n with hlt | hge
    · obtain ⟨h1, h2, h3⟩ := iterUp_setupVolt_at m d ec n i hlt
      have hne : i ≠ n := by omega
      simp only [iterUp, setupVoltChan, ecRead, updFn]
      simp [hne, h1, h2, h3]
    · have hi : i = n := by omega
      subst hi
      obtain ⟨he1, he2, he3⟩ := iterUp_setupVolt_ec m d ec i
      simp only [iterUp, setupVoltChan, ecRead, updFn]
      simp [he1, he2, voltDecodeAt]

theorem iterUp_fan_ec (ty : FanConfigType) (d : DevData) (ec : EC) :
    ∀ n, (iterUp (updFanChan ty) (d, ec) n).2.readF = ec.readF ∧
      (iterUp (updFanChan ty) (d, ec) n).2.t = ec.t + 2 * n ∧
      (iterUp (updFanChan ty) (d, ec) n).2.writes = ec.writes
  | 0 => by simp [iterUp]
  | n + 1 => by
    obtain ⟨h1, h2, h3⟩ := iterUp_fan_ec ty d ec n
    simp only [iterUp, updFanChan, ecRead]
    refine ⟨h1, by simp [h2]; omega, h3⟩

theorem iterUp_fan_untouched (ty : FanConfigType) (d : DevData) (ec : EC) :
    ∀ n, ∀ i, n ≤ i →
      (iterUp (updFanChan ty) (d, ec) n).1.rpmCur i = d.rpmCur i ∧
      (iterUp (updFanChan ty) (d, ec) n).1.rpmMin i = d.rpmMin i ∧
      (iterUp (updFanChan ty) (d, ec) n).1.rpmMax i = d.rpmMax i
  | 0, i, _ => by simp [iterUp]
  | n + 1, i, h => by
    obtain ⟨h1, h2, h3⟩ := iterUp_fan_untouched ty d ec n i (by omega)
    have hne : i ≠ n := by omega
    simp only [iterUp, updFanChan, ecRead, updFn]
    simp [hne, h1, h2, h3]

theorem iterUp_fan_at (ty : FanConfigType) (d : DevData) (ec : EC) :
    ∀ n, ∀ i, i < n →
      (iterUp (updFanChan ty) (d, ec) n).1.rpmCur i =
        toU16 (toS16 ((fanRawAt ty ec.readF ec.t i : Nat) : Int)) ∧
      (iterUp (updFanChan ty) (d, ec) n).1.rpmMin i =
        toU16 (min (toS16 ((fanRawAt ty ec.readF ec.t i : Nat) : Int)) ((d.rpmMin i : Nat) : Int)) ∧
      (iterUp (updFanChan ty) (d, ec) n).1.rpmMax i =
        toU16 (max (toS16 ((fanRawAt ty ec.readF ec.t i : Nat) : Int)) ((d.rpmMax i : Nat) : Int))
  | n + 1, i, h => by
    rcases Nat.lt_or_ge i n with hlt | hge
    · obtain ⟨h1, h2, h3⟩ := iterUp_fan_at ty d ec n i hlt
      have hne : i ≠ n := by omega
      simp only [iterUp, updFanChan, ecRead, updFn]
      simp [hne, h1, h2, h3]
    · have hi : i = n := by omega
      subst hi
      obtain ⟨hu1, hu2, hu3⟩ := iterUp_fan_untouched ty d ec i i (le_refl i)
      obtain ⟨he1, he2, he3⟩ := iterUp_fan_ec ty d ec i
      simp only [iterUp, updFanChan, ecRead, updFn]
      simp [he1, he2, hu1, hu2, hu3, fanRawAt]

theorem iterUp_pwm_ec (ty : FanConfigType) (d : DevData) (ec : EC) :
    ∀ n, (iterUp (updPwmChan ty) (d, ec) n).2.readF = ec.readF ∧
      (iterUp (updPwmChan ty) (d, ec) n).2.t = ec.t + 2 * n ∧
      (iterUp (updPwmChan ty) (d, ec) n).2.writes = ec.writes
  | 0 => by simp [iterUp]
  | n + 1 => by
    obtain ⟨h1, h2, h3⟩ := iterUp_pwm_ec ty d ec n
    simp only [iterUp, updPwmChan, nct6687_get_pwm_enable, ecRead]
    refine ⟨h1, by simp [h2]; omega, h3⟩

theorem iterUp_setupFan_ec (ty : FanConfigType) (d : DevData) (ec : EC) :
    ∀ n, (iterUp (setupFanChan ty) (d, ec) n).2.readF = ec.readF ∧
      (iterUp (setupFanChan ty) (d, ec) n).2.t = ec.t + 3 * n ∧
      (iterUp (setupFanChan ty) (d, ec) n).2.writes = ec.writes
  | 0 => by simp [iterUp]
  | n + 1 => by
    obtain ⟨h1, h2, h3⟩ := iterUp_setupFan_ec ty d ec n
    simp only [iterUp, setupFanChan, ecRead]
    refine ⟨h1, by simp [h2]; omega, h3⟩

theorem iterUp_setupFan_at (ty : FanConfigType) (d : DevData) (ec : EC) :
    ∀ n, ∀ i, i < n →
      (iterUp (setupFanChan ty) (d, ec) n).1.rpmCur i =
        ((ec.readF (ec.t + 3 * i + 1) (NCT6687_REG_FAN_RPM ty i) % 256) <<< 8) |||
          (ec.readF (ec.t + 3 * i + 2) (NCT6687_REG_FAN_RPM ty i + 1) % 256) ∧
      (iterUp (setupFanChan ty) (d, ec) n).1.rpmMin i =
        (iterUp (setupFanChan ty) (d, ec) n).1.rpmCur i ∧
      (iterUp (setupFanChan ty) (d, ec) n).1.rpmMax i =
        (iterUp (setupFanChan ty) (d, ec) n).1.rpmCur i
  | n + 1, i, h => by
    rcases Nat.lt_or_ge i n with hlt | hge
    · obtain ⟨h1, h2, h3⟩ := iterUp_setupFan_at ty d ec n i hlt
      have hne : i ≠ n := by omega
      simp only [iterUp, setupFanChan, ecRead, updFn] at h1 h2 h3 ⊢
      simp only [hne] at h1 h2 h3 ⊢
      simp_all
    · have hi : i = n := by omega
      subst hi
      obtain ⟨he1, he2, he3⟩ := iterUp_setupFan_ec ty d ec i
      simp only [iterUp, setupFanChan, ecRead, updFn]
      simp [he1, he2]

/-- A concrete device state used by witnesses and counterexamples. -/
def dd0 : DevData where
  kind := Kinds.nct6687
  valid := false
  last_updated := 0
  voltageCur := fun _ => 0
  voltageMin := fun _ => 0
  voltageMax := fun _ => 0
  tempCur := fun _ => 0
  tempMin := fun _ => 0
  tempMax := fun _ => 0
  rpmCur := fun _ => 0
  rpmMin := fun _ => 0
  rpmMax := fun _ => 0
  pwm := fun _ => 0
  pwm_enable := fun _ => 99
  initialFanControlMode := fun _ => 0
  initialFanPwmCommand := fun _ => 0
  restoreRequired := fun _ => false
  hwm_cfg := 0

/-- C1: the claim says all four physical port operations of every transport
call happen under the transport lock.  The write path does, but the source
of nct6687_read releases EC_io_lock before the data-port inb_p, so the data
read of every read call happens outside the lock: the claim is right about
the intended protocol (the write path and the spec agree) and the read path
is a code bug. -/
theorem C1_read_data_port_outside_lock :
    portOpsLocked (nct6687_write_events 0xA20 0x100 0x61) = true ∧
    portOpsLocked (nct6687_read_events 0xA20 0x100) = false := by
  exact ⟨rfl, rfl⟩

/-- C10: the control-mode register and the handshake/PWM-command register
addresses are the constants 0xA00 and 0xA01 for every channel index, so all
channels share one control-mode byte and one command register. -/
theorem C10_shared_command_registers (x y : Nat) :
    NCT6687_REG_FAN_CTRL_MODE x = 0xA00 ∧
    NCT6687_REG_FAN_PWM_COMMAND x = 0xA01 ∧
    NCT6687_REG_FAN_CTRL_MODE x = NCT6687_REG_FAN_CTRL_MODE y ∧
    NCT6687_REG_FAN_PWM_COMMAND x = NCT6687_REG_FAN_PWM_COMMAND y :=
  ⟨rfl, rfl, rfl, rfl⟩

/-- C5: for every temperature channel the refresh path decodes the reading
as signed-8-bit(primary) * 1000 plus 500 times bit 7 of the following
register; in particular whole = 25 with the half bit set decodes to 25500
milli-degrees. -/
theorem C5_temperature_decode (f : Nat → Nat → Nat) (t0 : Nat) (w : List (Nat × Nat))
    (d : DevData) (i : Nat) (hi : i < NCT6687_NUM_REG_TEMP) :
    (nct6687_update_temperatures d ⟨f, t0, w⟩).1.tempCur i =
      toSigned8 (f (t0 + 2 * i) (NCT6687_REG_TEMP i) % 256) * 1000 +
        500 * ((((f (t0 + 2 * i + 1) (NCT6687_REG_TEMP i + 1) % 256) >>> 7) &&& 1 : Nat) : Int) ∧
    tempDecode 25 0x80 = 25500 := by
  refine ⟨?_, by decide⟩
  have h := (iterUp_temp_at d ⟨f, t0, w⟩ NCT6687_NUM_REG_TEMP i hi).1
  simpa [tempDecodeAt, tempDecode, nct6687_update_temperatures] using h

theorem C5_temperature_decode_witness :
    (0 < NCT6687_NUM_REG_TEMP) ∧
    ((nct6687_update_temperatures dd0 ⟨fun _ _ => 25, 0, []⟩).1.tempCur 0 =
        toSigned8 (25 % 256) * 1000 + 500 * ((((25 % 256) >>> 7) &&& 1 : Nat) : Int) ∧
      tempDecode 25 0x80 = 25500) :=
  ⟨by decide, C5_temperature_decode (fun _ _ => 25) 0 [] dd0 0 (by decide)⟩

/-- C9: the first-read seeding path of the temperature channels multiplies
the half-degree bit by 5 instead of 500, so whenever the half bit is set the
seeded value differs by 495 milli-degrees from the refresh decode of the
same raw bytes. -/
theorem C9_setup_vs_update_decode (f : Nat → Nat → Nat) (t0 : Nat) (w : List (Nat × Nat))
    (d d' : DevData) (i : Nat) (hi : i < NCT6687_NUM_REG_TEMP) :
    (nct6687_update_temperatures d ⟨f, t0, w⟩).1.tempCur i -
        (nct6687_setup_temperatures d' ⟨f, t0, w⟩).1.tempCur i =
      495 * ((((f (t0 + 2 * i + 1) (NCT6687_REG_TEMP i + 1) % 256) >>> 7) &&& 1 : Nat) : Int) ∧
    tempDecode 25 0x80 - setupTempDecode 25 0x80 = 495 := by
  refine ⟨?_, by decide⟩
  have h1 := (iterUp_temp_at d ⟨f, t0, w⟩ NCT6687_NUM_REG_TEMP i hi).1
  have h2 := (iterUp_setupTemp_at d' ⟨f, t0, w⟩ NCT6687_NUM_REG_TEMP i hi).1
  simp only [nct6687_update_temperatures, nct6687_setup_temperatures] at *
  rw [h1, h2]
  simp only [tempDecodeAt, setupTempDecodeAt, tempDecode, setupTempDecode]
  ring

theorem C9_setup_vs_update_decode_witness :
    (0 < NCT6687_NUM_REG_TEMP) ∧
    ((nct6687_update_temperatures dd0 ⟨fun _ _ => 0x80, 0, []⟩).1.tempCur 0 -
        (nct6687_setup_temperatures dd0 ⟨fun _ _ => 0x80, 0, []⟩).1.tempCur 0 =
      495 * ((((0x80 % 256) >>> 7) &&& 1 : Nat) : Int) ∧
      tempDecode 25 0x80 - setupTempDecode 25 0x80 = 495) :=
  ⟨by decide, C9_setup_vs_update_decode (fun _ _ => 0x80) 0 [] dd0 dd0 0 (by decide)⟩

/-- C8: unparsable input, a duty above 255, an out-of-range channel index
and a control-mode value other than 1 (manual) or 99 (firmware) are all
rejected with -EINVAL before any register access. -/
theorem C8_invalid_input_rejected :
    (∀ cfg d ec i, store_pwm cfg d ec i none = Except.error ()) ∧
    (∀ cfg d ec i v, 255 < v → store_pwm cfg d ec i (some v) = Except.error ()) ∧
    (∀ cfg d ec i v, NCT6687_NUM_REG_FAN ≤ i → store_pwm cfg d ec i (some v) = Except.error ()) ∧
    (∀ d ec i, store_pwm_enable d ec i none = Except.error ()) ∧
    (∀ d ec i v, NCT6687_NUM_REG_FAN ≤ i → store_pwm_enable d ec i (some v) = Except.error ()) ∧
    (∀ d ec i v, v ≠ 1 → v ≠ 99 → store_pwm_enable d ec i (some v) = Except.error ()) := by
  refine ⟨fun cfg d ec i => rfl, ?_, ?_, ?_, ?_, ?_⟩
  · intro cfg d ec i v hv
    simp [store_pwm, hv]
  · intro cfg d ec i v hi
    simp [store_pwm, hi]
  · intro d ec i
    unfold store_pwm_enable
    split <;> rfl
  · intro d ec i v hi
    simp [store_pwm_enable, hi]
  · intro d ec i v h1 h99
    unfold store_pwm_enable
    split
    · rfl
    · simp [h1, h99]

theorem C8_invalid_input_rejected_witness :
    store_pwm ⟨FanConfigType.default, false, false⟩ dd0 ⟨fun _ _ => 0, 0, []⟩ 0 (some 300) =
      Except.error () ∧
    store_pwm_enable dd0 ⟨fun _ _ => 0, 0, []⟩ 0 (some 5) = Except.error () :=
  ⟨C8_invalid_input_rejected.2.1 ⟨FanConfigType.default, false, false⟩ dd0 ⟨fun _ _ => 0, 0, []⟩
      0 300 (by decide),
   C8_invalid_input_rejected.2.2.2.2.2 dd0 ⟨fun _ _ => 0, 0, []⟩ 0 5 (by decide) (by decide)⟩

/-- C7 counterexample: the claim says the cache refreshes when `now` minus
the last update time is at least 1 time unit.  At exactly one time unit
(hz ticks) with a valid cache, `time_after(now, last + HZ)` is false and the
update is a no-op, contradicting the claim's "at least". -/
theorem C7_boundary_counterexample :
    ({ dd0 with valid := true } : DevData).valid = true ∧
    ({ dd0 with valid := true } : DevData).last_updated = 0 ∧
    1000 - ({ dd0 with valid := true } : DevData).last_updated ≥ 1000 ∧
    nct6687_update_device ⟨FanConfigType.default, false, false⟩ 1000
        { dd0 with valid := true } ⟨fun _ _ => 0, 0, []⟩ 1000 =
      ({ dd0 with valid := true }, ⟨fun _ _ => 0, 0, []⟩) := by
  refine ⟨rfl, rfl, by decide, ?_⟩
  have hc : ¬(({ dd0 with valid := true } : DevData).last_updated + 1000 < 1000 ∨
      ({ dd0 with valid := true } : DevData).valid = false) := by
    simp [dd0]
  simp [nct6687_update_device, hc]

/-- C7 amended: refresh happens if and only if the cache was never
initialized or strictly more than hz ticks elapsed since the last update
(the source uses the strict `time_after(jiffies, last_updated + HZ)`).
When it refreshes, every voltage, temperature and fan/pwm register is
re-read — exactly 74 logical register reads: 28 voltage, 14 temperature,
16 fan rpm and 16 pwm/mode — the timestamp becomes `now` and the cache
turns valid; otherwise the whole snapshot and the EC are left untouched. -/
theorem C7_refresh_staleness (cfg : Config) (hz : Nat) (d : DevData) (ec : EC) (now : Nat) :
    (d.valid = true → now ≤ d.last_updated + hz →
      nct6687_update_device cfg hz d ec now = (d, ec)) ∧
    (d.last_updated + hz < now ∨ d.valid = false →
      (nct6687_update_device cfg hz d ec now).1.valid = true ∧
      (nct6687_update_device cfg hz d ec now).1.last_updated = now ∧
      (nct6687_update_device cfg hz d ec now).2.readF = ec.readF ∧
      (nct6687_update_device cfg hz d ec now).2.t = ec.t + 74 ∧
      (nct6687_update_device cfg hz d ec now).2.writes = ec.writes) := by
  constructor
  · intro hv hle
    have hc : ¬(d.last_updated + hz < now ∨ d.valid = false) := by
      simp [hv]
      omega
    simp [nct6687_update_device, hc]
  · intro hc
    rcases h1 : nct6687_update_voltage cfg d ec with ⟨d1, ec1⟩
    rcases h2 : nct6687_update_temperatures d1 ec1 with ⟨d2, ec2⟩
    rcases h3 : nct6687_update_fans cfg.fanType d2 ec2 with ⟨d3, ec3⟩
    have hv := iterUp_volt_ec cfg.manualVoltage d ec NCT6687_NUM_REG_VOLTAGE
    rw [show iterUp (updVoltChan cfg.manualVoltage) (d, ec) NCT6687_NUM_REG_VOLTAGE =
          nct6687_update_voltage cfg d ec from rfl, h1] at hv
    have ht := iterUp_temp_ec d1 ec1 NCT6687_NUM_REG_TEMP
    rw [show iterUp updTempChan (d1, ec1) NCT6687_NUM_REG_TEMP =
          nct6687_update_temperatures d1 ec1 from rfl, h2] at ht
    rcases h4 : iterUp (updFanChan cfg.fanType) (d2, ec2) NCT6687_NUM_REG_FAN with ⟨d4, ec4⟩
    have hf := iterUp_fan_ec cfg.fanType d2 ec2 NCT6687_NUM_REG_FAN
    rw [h4] at hf
    have hp := iterUp_pwm_ec cfg.fanType d4 ec4 NCT6687_NUM_REG_PWM
    rw [show iterUp (updPwmChan cfg.fanType) (d4, ec4) NCT6687_NUM_REG_PWM =
          nct6687_update_fans cfg.fanType d2 ec2 from by
        simp [nct6687_update_fans, h4], h3] at hp
    obtain ⟨hv1, hv2, hv3⟩ := hv
    obtain ⟨ht1, ht2, ht3⟩ := ht
    obtain ⟨hf1, hf2, hf3⟩ := hf
    obtain ⟨hp1, hp2, hp3⟩ := hp
    have hgoal : nct6687_update_device cfg hz d ec now =
        ({ d3 with last_updated := now, valid := true }, ec3) := by
      simp only [nct6687_update_device, if_pos hc, h1, h2, h3]
    rw [hgoal]
    refine ⟨rfl, rfl, ?_, ?_, ?_⟩
    · rw [hp1, hf1, ht1, hv1]
    · rw [hp2, hf2, ht2, hv2]
      show ec.t + 2 * 14 + 2 * 7 + 2 * 8 + 2 * 8 = ec.t + 74
      omega
    · rw [hp3, hf3, ht3, hv3]

theorem C7_refresh_staleness_witness :
    (dd0.last_updated + 1000 < 5000 ∨ dd0.valid = false) ∧
    ((nct6687_update_device ⟨FanConfigType.default, false, false⟩ 1000 dd0
        ⟨fun _ _ => 0, 7, []⟩ 5000).1.valid = true ∧
      (nct6687_update_device ⟨FanConfigType.default, false, false⟩ 1000 dd0
        ⟨fun _ _ => 0, 7, []⟩ 5000).1.last_updated = 5000 ∧
      (nct6687_update_device ⟨FanConfigType.default, false, false⟩ 1000 dd0
        ⟨fun _ _ => 0, 7, []⟩ 5000).2.readF = (⟨fun _ _ => 0, 7, []⟩ : EC).readF ∧
      (nct6687_update_device ⟨FanConfigType.default, false, false⟩ 1000 dd0
        ⟨fun _ _ => 0, 7, []⟩ 5000).2.t = (⟨fun _ _ => 0, 7, []⟩ : EC).t + 74 ∧
      (nct6687_update_device ⟨FanConfigType.default, false, false⟩ 1000 dd0
        ⟨fun _ _ => 0, 7, []⟩ 5000).2.writes = (⟨fun _ _ => 0, 7, []⟩ : EC).writes) :=
  ⟨by left; decide,
   (C7_refresh_staleness ⟨FanConfigType.default, false, false⟩ 1000 dd0
      ⟨fun _ _ => 0, 7, []⟩ 5000).2 (by left; decide)⟩

theorem toS16_of_lt (r : Nat) (h : r < 32768) : toS16 (r : Int) = (r : Int) := by
  unfold toS16
  omega

theorem toU16_coe (m : Nat) (h : m < 65536) : toU16 (m : Int) = m := by
  unfold toU16
  omega

theorem iterUp_pwm_rpm_preserved (ty : FanConfigType) (d : DevData) (ec : EC) :
    ∀ n, ∀ i,
      (iterUp (updPwmChan ty) (d, ec) n).1.rpmCur i = d.rpmCur i ∧
      (iterUp (updPwmChan ty) (d, ec) n).1.rpmMin i = d.rpmMin i ∧
      (iterUp (updPwmChan ty) (d, ec) n).1.rpmMax i = d.rpmMax i
  | 0, i => by simp [iterUp]
  | n + 1, i => by
    obtain ⟨h1, h2, h3⟩ := iterUp_pwm_rpm_preserved ty d ec n i
    simp only [iterUp, updPwmChan, nct6687_get_pwm_enable, ecRead]
    simp [h1, h2, h3]

/-- The fan rpm series after a full nct6687_update_fans pass, for every
channel: the pwm loop leaves the rpm series alone, so the values are the
ones of the rpm loop. -/
theorem update_fans_rpm_at (ty : FanConfigType) (d : DevData) (ec : EC) (i : Nat)
    (hi : i < NCT6687_NUM_REG_FAN) :
    (nct6687_update_fans ty d ec).1.rpmCur i =
      toU16 (toS16 ((fanRawAt ty ec.readF ec.t i : Nat) : Int)) ∧
    (nct6687_update_fans ty d ec).1.rpmMin i =
      toU16 (min (toS16 ((fanRawAt ty ec.readF ec.t i : Nat) : Int)) ((d.rpmMin i : Nat) : Int)) ∧
    (nct6687_update_fans ty d ec).1.rpmMax i =
      toU16 (max (toS16 ((fanRawAt ty ec.readF ec.t i : Nat) : Int)) ((d.rpmMax i : Nat) : Int)) := by
  obtain ⟨a1, a2, a3⟩ := iterUp_fan_at ty d ec NCT6687_NUM_REG_FAN i hi
  rcases hs : iterUp (updFanChan ty) (d, ec) NCT6687_NUM_REG_FAN with ⟨d1, ec1⟩
  rw [hs] at a1 a2 a3
  obtain ⟨p1, p2, p3⟩ := iterUp_pwm_rpm_preserved ty d1 ec1 NCT6687_NUM_REG_PWM i
  unfold nct6687_update_fans
  rw [hs]
  exact ⟨by rw [p1, a1], by rw [p2, a2], by rw [p3, a3]⟩

/-- Oracle and device state of the C6 counterexample: previous fan history
min = 5, max = 100, and a refresh reading of 0x8000 (32768 rpm). -/
def d6 : DevData :=
  { dd0 with rpmCur := fun _ => 100, rpmMin := fun _ => 5, rpmMax := fun _ => 100 }

/-- C6 counterexample oracle: the high rpm byte of fan channel 0 reads
0x80, every other read returns 0. -/
def f6 : Nat → Nat → Nat := fun _ a => if a = 0x140 then 0x80 else 0

/-- C6 counterexample: with previous min = 5 and max = 100 on fan channel 0
and a 16-bit reading of 32768, the source converts the reading to the
signed value -32768 before the MIN/MAX comparisons (`s16 rmp`), so the
stored min jumps from 5 to 32768 (min increases) and current = 32768
exceeds max = 100: the claimed min/max rule and the min ≤ current ≤ max
invariant both fail for fan channels. -/
theorem C6_fan_minmax_counterexample :
    d6.rpmMin 0 = 5 ∧ d6.rpmMax 0 = 100 ∧
    (nct6687_update_fans FanConfigType.default d6 ⟨f6, 0, []⟩).1.rpmCur 0 = 32768 ∧
    (nct6687_update_fans FanConfigType.default d6 ⟨f6, 0, []⟩).1.rpmMin 0 = 32768 ∧
    (nct6687_update_fans FanConfigType.default d6 ⟨f6, 0, []⟩).1.rpmMax 0 = 100 ∧
    ¬((nct6687_update_fans FanConfigType.default d6 ⟨f6, 0, []⟩).1.rpmCur 0 ≤
        (nct6687_update_fans FanConfigType.default d6 ⟨f6, 0, []⟩).1.rpmMax 0) ∧
    ¬((nct6687_update_fans FanConfigType.default d6 ⟨f6, 0, []⟩).1.rpmMin 0 ≤ d6.rpmMin 0) := by
  refine ⟨rfl, rfl, ?_, ?_, ?_, ?_, ?_⟩ <;> decide

/-- C6 amended: the per-refresh rule `current = new, min = min(min, new),
max = max(max, new)` and the derived `min ≤ current ≤ max` and
monotonicity hold unconditionally for voltage and temperature channels, and
for fan channels provided the 16-bit reading is below 32768 (so the
source's `s16` conversion of the reading is value-preserving) and the
stored history is in u16 range; the setup paths seed min = max = current. -/
theorem C6_minmax_refresh (f : Nat → Nat → Nat) (t0 : Nat) (w : List (Nat × Nat))
    (cfg : Config) (d : DevData) :
    (∀ i, i < NCT6687_NUM_REG_TEMP →
      (nct6687_update_temperatures d ⟨f, t0, w⟩).1.tempCur i = tempDecodeAt f t0 i ∧
      (nct6687_update_temperatures d ⟨f, t0, w⟩).1.tempMin i =
        min (tempDecodeAt f t0 i) (d.tempMin i) ∧
      (nct6687_update_temperatures d ⟨f, t0, w⟩).1.tempMax i =
        max (tempDecodeAt f t0 i) (d.tempMax i) ∧
      (nct6687_update_temperatures d ⟨f, t0, w⟩).1.tempMin i ≤ d.tempMin i ∧
      d.tempMax i ≤ (nct6687_update_temperatures d ⟨f, t0, w⟩).1.tempMax i ∧
      (nct6687_update_temperatures d ⟨f, t0, w⟩).1.tempMin i ≤
        (nct6687_update_temperatures d ⟨f, t0, w⟩).1.tempCur i ∧
      (nct6687_update_temperatures d ⟨f, t0, w⟩).1.tempCur i ≤
        (nct6687_update_temperatures d ⟨f, t0, w⟩).1.tempMax i) ∧
    (∀ i, i < NCT6687_NUM_REG_VOLTAGE →
      (nct6687_update_voltage cfg d ⟨f, t0, w⟩).1.voltageCur i =
        voltDecodeAt cfg.manualVoltage f t0 i ∧
      (nct6687_update_voltage cfg d ⟨f, t0, w⟩).1.voltageMin i =
        min (voltDecodeAt cfg.manualVoltage f t0 i) (d.voltageMin i) ∧
      (nct6687_update_voltage cfg d ⟨f, t0, w⟩).1.voltageMax i =
        max (voltDecodeAt cfg.manualVoltage f t0 i) (d.voltageMax i) ∧
      (nct6687_update_voltage cfg d ⟨f, t0, w⟩).1.voltageMin i ≤ d.voltageMin i ∧
      d.voltageMax i ≤ (nct6687_update_voltage cfg d ⟨f, t0, w⟩).1.voltageMax i ∧
      (nct6687_update_voltage cfg d ⟨f, t0, w⟩).1.voltageMin i ≤
        (nct6687_update_voltage cfg d ⟨f, t0, w⟩).1.voltageCur i ∧
      (nct6687_update_voltage cfg d ⟨f, t0, w⟩).1.voltageCur i ≤
        (nct6687_update_voltage cfg d ⟨f, t0, w⟩).1.voltageMax i) ∧
    (∀ i, i < NCT6687_NUM_REG_FAN → fanRawAt cfg.fanType f t0 i < 32768 →
      d.rpmMin i < 65536 → d.rpmMax i < 65536 →
      (nct6687_update_fans cfg.fanType d ⟨f, t0, w⟩).1.rpmCur i = fanRawAt cfg.fanType f t0 i ∧
      (nct6687_update_fans cfg.fanType d ⟨f, t0, w⟩).1.rpmMin i =
        min (fanRawAt cfg.fanType f t0 i) (d.rpmMin i) ∧
      (nct6687_update_fans cfg.fanType d ⟨f, t0, w⟩).1.rpmMax i =
        max (fanRawAt cfg.fanType f t0 i) (d.rpmMax i) ∧
      (nct6687_update_fans cfg.fanType d ⟨f, t0, w⟩).1.rpmMin i ≤ d.rpmMin i ∧
      d.rpmMax i ≤ (nct6687_update_fans cfg.fanType d ⟨f, t0, w⟩).1.rpmMax i ∧
      (nct6687_update_fans cfg.fanType d ⟨f, t0, w⟩).1.rpmMin i ≤
        (nct6687_update_fans cfg.fanType d ⟨f, t0, w⟩).1.rpmCur i ∧
      (nct6687_update_fans cfg.fanType d ⟨f, t0, w⟩).1.rpmCur i ≤
        (nct6687_update_fans cfg.fanType d ⟨f, t0, w⟩).1.rpmMax i) ∧
    (∀ i, i < NCT6687_NUM_REG_TEMP →
      (nct6687_setup_temperatures d ⟨f, t0, w⟩).1.tempMin i =
        (nct6687_setup_temperatures d ⟨f, t0, w⟩).1.tempCur i ∧
      (nct6687_setup_temperatures d ⟨f, t0, w⟩).1.tempMax i =
        (nct6687_setup_temperatures d ⟨f, t0, w⟩).1.tempCur i) ∧
    (∀ i, i < NCT6687_NUM_REG_VOLTAGE →
      (nct6687_setup_voltages cfg d ⟨f, t0, w⟩).1.voltageMin i =
        (nct6687_setup_voltages cfg d ⟨f, t0, w⟩).1.voltageCur i ∧
      (nct6687_setup_voltages cfg d ⟨f, t0, w⟩).1.voltageMax i =
        (nct6687_setup_voltages cfg d ⟨f, t0, w⟩).1.voltageCur i) ∧
    (∀ i, i < NCT6687_NUM_REG_FAN →
      (nct6687_setup_fans cfg.fanType d ⟨f, t0, w⟩).1.rpmMin i =
        (nct6687_setup_fans cfg.fanType d ⟨f, t0, w⟩).1.rpmCur i ∧
      (nct6687_setup_fans cfg.fanType d ⟨f, t0, w⟩).1.rpmMax i =
        (nct6687_setup_fans cfg.fanType d ⟨f, t0, w⟩).1.rpmCur i) := by
  refine ⟨?_, ?_, ?_, ?_, ?_, ?_⟩
  · intro i hi
    obtain ⟨h1, h2, h3⟩ := iterUp_temp_at d ⟨f, t0, w⟩ NCT6687_NUM_REG_TEMP i hi
    simp only [nct6687_update_temperatures]
    rw [h1, h2, h3]
    refine ⟨rfl, rfl, rfl, min_le_right _ _, le_max_right _ _, min_le_left _ _, le_max_left _ _⟩
  · intro i hi
    obtain ⟨h1, h2, h3⟩ := iterUp_volt_at cfg.manualVoltage d ⟨f, t0, w⟩ NCT6687_NUM_REG_VOLTAGE i hi
    simp only [nct6687_update_voltage]
    rw [h1, h2, h3]
    refine ⟨rfl, rfl, rfl, min_le_right _ _, le_max_right _ _, min_le_left _ _, le_max_left _ _⟩
  · intro i hi hraw hmin hmax
    obtain ⟨h1, h2, h3⟩ := update_fans_rpm_at cfg.fanType d ⟨f, t0, w⟩ i hi
    rw [toS16_of_lt _ hraw] at h1 h2 h3
    rw [toU16_coe _ (by omega)] at h1
    rw [show min ((fanRawAt cfg.fanType f t0 i : Nat) : Int) ((d.rpmMin i : Nat) : Int) =
          ((min (fanRawAt cfg.fanType f t0 i) (d.rpmMin i) : Nat) : Int) from (Nat.cast_min _ _).symm,
        toU16_coe _ (by omega)] at h2
    rw [show max ((fanRawAt cfg.fanType f t0 i : Nat) : Int) ((d.rpmMax i : Nat) : Int) =
          ((max (fanRawAt cfg.fanType f t0 i) (d.rpmMax i) : Nat) : Int) from (Nat.cast_max _ _).symm,
        toU16_coe _ (by omega)] at h3
    rw [h1, h2, h3]
    refine ⟨rfl, rfl, rfl, min_le_right _ _, le_max_right _ _, min_le_left _ _, le_max_left _ _⟩
  · intro i hi
    obtain ⟨h1, h2, h3⟩ := iterUp_setupTemp_at d ⟨f, t0, w⟩ NCT6687_NUM_REG_TEMP i hi
    simp only [nct6687_setup_temperatures]
    rw [h1, h2, h3]
    exact ⟨rfl, rfl⟩
  · intro i hi
    obtain ⟨h1, h2, h3⟩ := iterUp_setupVolt_at cfg.manualVoltage d ⟨f, t0, w⟩
      NCT6687_NUM_REG_VOLTAGE i hi
    simp only [nct6687_setup_voltages]
    rw [h1, h2, h3]
    exact ⟨rfl, rfl⟩
  · intro i hi
    obtain ⟨h1, h2, h3⟩ := iterUp_setupFan_at cfg.fanType d ⟨f, t0, w⟩ NCT6687_NUM_REG_FAN i hi
    simp only [nct6687_setup_fans]
    rw [h2, h3]
    exact ⟨rfl, rfl⟩

theorem C6_minmax_refresh_witness :
    ((nct6687_update_temperatures dd0 ⟨fun _ _ => 0, 0, []⟩).1.tempMin 0 ≤
      (nct6687_update_temperatures dd0 ⟨fun _ _ => 0, 0, []⟩).1.tempCur 0) ∧
    ((nct6687_update_fans FanConfigType.default dd0 ⟨fun _ _ => 0, 0, []⟩).1.rpmCur 0 ≤
      (nct6687_update_fans FanConfigType.default dd0 ⟨fun _ _ => 0, 0, []⟩).1.rpmMax 0) :=
  ⟨((C6_minmax_refresh (fun _ _ => 0) 0 [] ⟨FanConfigType.default, false, false⟩ dd0).1 0
      (by decide)).2.2.2.2.2.1,
   ((C6_minmax_refresh (fun _ _ => 0) 0 [] ⟨FanConfigType.default, false, false⟩ dd0).2.2.1 0
      (by decide) (by decide) (by decide) (by decide)).2.2.2.2.2.2⟩

/-! Handshake behaviour under two oracle families: a cooperative device
whose engine status always reads 0x28 (PHASE and CHECK_DONE set, LOCK
clear), and a wedged device whose engine status always reads 0x40 (LOCK
set, PHASE clear) so the Unlocked state is never reached. -/

theorem start_fast (ec : EC) (fan : Nat)
    (hSTS : ∀ t, ec.readF t NCT6687_REG_FAN_ENGINE_STS % 256 = 0x28) :
    start_fan_cfg_update ec fan = (true, { ec with t := ec.t + 1 }) := by
  unfold start_fan_cfg_update
  simp only [ecRead]
  have hS := hSTS ec.t
  simp only [hS]
  rw [if_pos (by decide)]

theorem finishLoop_succ (prev n : Nat) (ec : EC) :
    finishLoop prev (n + 1) ec =
      (if ec.readF ec.t NCT6687_REG_FAN_ENGINE_STS % 256 &&& NCT6687_FAN_CFG_CHECK_DONE ≠ 0
       then (ec.readF ec.t NCT6687_REG_FAN_ENGINE_STS % 256, { ec with t := ec.t + 1 })
       else finishLoop (ec.readF ec.t NCT6687_REG_FAN_ENGINE_STS % 256) n
              { ec with t := ec.t + 1 }) := rfl

theorem sfcuLoop1_succ (fan n : Nat) (ec : EC) :
    sfcuLoop1 fan (n + 1) ec =
      (if ec.readF ec.t NCT6687_REG_FAN_ENGINE_STS % 256 &&& NCT6687_FAN_CFG_PHASE = 0 then
        (if ec.readF (ec.t + 1) (NCT6687_REG_FAN_PWM_COMMAND fan) % 256 &&&
            NCT6687_FAN_CFG_REQ = 0
         then (true, { ec with t := ec.t + 1 + 1 })
         else sfcuLoop1 fan n { ec with t := ec.t + 1 + 1 })
       else sfcuLoop1 fan n { ec with t := ec.t + 1 }) := rfl

theorem sfcuLoop2_succ (n : Nat) (ec : EC) :
    sfcuLoop2 (n + 1) ec =
      (if ec.readF ec.t NCT6687_REG_FAN_ENGINE_STS % 256 &&& NCT6687_FAN_CFG_LOCK = 0 ∧
          ec.readF ec.t NCT6687_REG_FAN_ENGINE_STS % 256 &&& NCT6687_FAN_CFG_PHASE ≠ 0
       then (true, { ec with t := ec.t + 1 })
       else sfcuLoop2 n { ec with t := ec.t + 1 }) := rfl

theorem finishLoop_break1000 (prev : Nat) (ec : EC)
    (h : ec.readF ec.t NCT6687_REG_FAN_ENGINE_STS % 256 = 0x28) :
    finishLoop prev 1000 ec = (0x28, { ec with t := ec.t + 1 }) := by
  show finishLoop prev (999 + 1) ec = _
  rw [finishLoop_succ]
  simp only [h]
  rw [if_pos (by decide)]

theorem finish_fast (kind : Kinds) (ec : EC) (fan : Nat)
    (hSTS : ∀ t, ec.readF t NCT6687_REG_FAN_ENGINE_STS % 256 = 0x28) :
    finish_fan_cfg_update kind ec fan =
      { ec with t := ec.t + 2,
                writes := ec.writes ++ [(NCT6687_REG_FAN_PWM_COMMAND fan, donecmdOf kind)] } := by
  have h1 := finishLoop_break1000 0x28
    { ec with
        t := ec.t + 1,
        writes := ec.writes ++
          [(NCT6687_REG_FAN_PWM_COMMAND fan,
            if kind = Kinds.nct6683 then 0x00 else NCT6687_FAN_CFG_DONE)] }
    (hSTS (ec.t + 1))
  unfold finish_fan_cfg_update
  simp only [ecRead, ecWrite]
  have hS := hSTS ec.t
  simp only [hS]
  rw [if_neg (by decide)]
  simp only [h1]
  have h : ec.t + 1 + 1 = ec.t + 2 := by omega
  rw [h]
  rfl

theorem sfcuLoop2_timeout (n : Nat) : ∀ ec : EC,
    (∀ t, ec.readF t NCT6687_REG_FAN_ENGINE_STS % 256 = 0x40) →
    sfcuLoop2 n ec = (false, { ec with t := ec.t + n }) := by
  induction n with
  | zero => intro ec hSTS; simp [sfcuLoop2]
  | succ n ih =>
    intro ec hSTS
    have hS := hSTS ec.t
    rw [sfcuLoop2_succ]
    simp only [hS]
    rw [if_neg (by decide)]
    rw [ih { ec with t := ec.t + 1 } (fun t => hSTS t)]
    have h : ec.t + 1 + n = ec.t + (n + 1) := by omega
    rw [h]

theorem sfcuLoop1_break1000 (fan : Nat) (ec : EC)
    (hSTS : ec.readF ec.t NCT6687_REG_FAN_ENGINE_STS % 256 = 0x40)
    (hCMD : ec.readF (ec.t + 1) (NCT6687_REG_FAN_PWM_COMMAND fan) % 256 = 0) :
    sfcuLoop1 fan 1000 ec = (true, { ec with t := ec.t + 1 + 1 }) := by
  show sfcuLoop1 fan (999 + 1) ec = _
  rw [sfcuLoop1_succ]
  simp only [hSTS, hCMD]
  rw [if_pos (by decide), if_pos (by decide)]

theorem start_timeout (ec : EC) (fan : Nat)
    (hSTS : ∀ t, ec.readF t NCT6687_REG_FAN_ENGINE_STS % 256 = 0x40)
    (hCMD : ∀ t, ec.readF t (NCT6687_REG_FAN_PWM_COMMAND fan) % 256 = 0) :
    start_fan_cfg_update ec fan =
      (false, { ec with t := ec.t + 1003,
                        writes := ec.writes ++
                          [(NCT6687_REG_FAN_PWM_COMMAND fan, NCT6687_FAN_CFG_REQ)] }) := by
  have h1 := sfcuLoop1_break1000 fan { ec with t := ec.t + 1 }
    (hSTS (ec.t + 1)) (hCMD (ec.t + 1 + 1))
  have h2 := sfcuLoop2_timeout 1000
    { ec with
        t := ec.t + 1 + 1 + 1,
        writes := ec.writes ++ [(NCT6687_REG_FAN_PWM_COMMAND fan, NCT6687_FAN_CFG_REQ)] }
    (fun t => hSTS t)
  unfold start_fan_cfg_update
  simp only [ecRead, ecWrite]
  have hS := hSTS ec.t
  simp only [hS]
  rw [if_neg (by decide)]
  simp only [h1]
  rw [if_neg (by decide)]
  simp only [ecWrite, h2]

theorem write_all_curve_spec (ec : EC) (b v : Nat) :
    nct6687_write_all_curve ec b v =
      { ec with writes := ec.writes ++
          [(b, v), (b + 2, v), (b + 4, v), (b + 6, v), (b + 8, v), (b + 10, v), (b + 12, v)] } := by
  simp [nct6687_write_all_curve, NCT6687_FAN_CURVE_POINTS, NCT6687_FAN_CURVE_POINT_SIZE,
    ecWrite, List.range_succ]

/-- C3: when the handshake begin phase polls out without ever observing the
Unlocked state (modelled by an engine status that always reads LOCK set and
PHASE clear, with the command register's REQ bit clear so the first poll
succeeds), begin returns failure; store_pwm then performs exactly two
register writes — the control-mode write (whose value has the channel's bit
set, i.e. the channel is still marked manual) and begin's own REQ command
write — so the pwm-write and curve registers are never written, and the
cached pwm value and control mode are still re-read from hardware at the
end. -/
theorem C3_begin_timeout_no_pwm_write (cfg : Config) (f : Nat → Nat → Nat) (d : DevData)
    (index v : Nat) (h8 : index < NCT6687_NUM_REG_FAN) (hv : v ≤ 255)
    (hSTS : ∀ t, f t NCT6687_REG_FAN_ENGINE_STS % 256 = 0x40)
    (hCMD : ∀ t, f t (NCT6687_REG_FAN_PWM_COMMAND index) % 256 = 0) :
    (∀ t w, (start_fan_cfg_update ⟨f, t, w⟩ index).1 = false) ∧
    ∃ d' ec' m,
      store_pwm cfg d ⟨f, 0, []⟩ index (some v) = Except.ok (d', ec') ∧
      ec'.writes = [(NCT6687_REG_FAN_CTRL_MODE index, m),
        (NCT6687_REG_FAN_PWM_COMMAND index, NCT6687_FAN_CFG_REQ)] ∧
      Nat.testBit m index = true ∧
      (∃ t1, d'.pwm index = f t1 (NCT6687_REG_PWM cfg.fanType index) % 256) ∧
      (∃ t2, d'.pwm_enable index =
        if f t2 (NCT6687_REG_FAN_CTRL_MODE index) % 256 &&& (1 <<< index) ≠ 0 then 1 else 99) := by
  have h8' : index < 8 := h8
  have hguard : ¬(255 < v ∨ NCT6687_NUM_REG_FAN ≤ index) := by
    have h : NCT6687_NUM_REG_FAN = 8 := rfl
    omega
  have hbit : ∀ x : Nat, Nat.testBit ((x % 256 ||| (1 <<< index) % 256) % 256) index = true := by
    intro x
    have hpow : (1 : Nat) <<< index = 2 ^ index := by
      rw [Nat.shiftLeft_eq, one_mul]
    have hle : (2 : Nat) ^ index ≤ 128 := by
      calc (2 : Nat) ^ index ≤ 2 ^ 7 := Nat.pow_le_pow_right (by omega) (by omega)
        _ = 128 := by norm_num
    have hmod : (1 : Nat) <<< index % 256 = 2 ^ index := by
      rw [hpow]
      exact Nat.mod_eq_of_lt (by omega)
    rw [hmod]
    have hor : (x % 256 ||| 2 ^ index) < 256 := by
      have h1 : x % 256 < 256 := Nat.mod_lt _ (by omega)
      calc x % 256 ||| 2 ^ index < 2 ^ 8 :=
            Nat.or_lt_two_pow (by simpa using h1) (by simpa using (by omega : (2:Nat) ^ index < 256))
        _ = 256 := by norm_num
    rw [Nat.mod_eq_of_lt hor, Nat.testBit_or, Nat.testBit_two_pow_self]
    simp
  constructor
  · intro t w
    rw [start_timeout ⟨f, t, w⟩ index (fun t => hSTS t) (fun t => hCMD t)]
  · cases hflag : d.restoreRequired index with
    | false =>
      have hbegin := start_timeout ⟨f, 3,
          [(NCT6687_REG_FAN_CTRL_MODE index,
            (f 2 (NCT6687_REG_FAN_CTRL_MODE index) % 256 ||| (1 <<< index) % 256) % 256)]⟩
        index (fun t => hSTS t) (fun t => hCMD t)
      simp only [store_pwm, nct6687_save_fan_control, hflag, eq_self_iff_true, if_true,
        Bool.false_eq_true, Bool.true_eq_false, if_false, List.cons_append, List.nil_append,
        List.singleton_append, ecRead, ecWrite, nct6687_get_pwm_enable, hbegin]
      rw [if_neg hguard]
      exact ⟨_, _, (f 2 (NCT6687_REG_FAN_CTRL_MODE index) % 256 ||| (1 <<< index) % 256) % 256,
        rfl, rfl, hbit _, ⟨1006, by simp [updFn]⟩, ⟨1007, by simp [updFn]⟩⟩
    | true =>
      have hbegin := start_timeout ⟨f, 1,
          [(NCT6687_REG_FAN_CTRL_MODE index,
            (f 0 (NCT6687_REG_FAN_CTRL_MODE index) % 256 ||| (1 <<< index) % 256) % 256)]⟩
        index (fun t => hSTS t) (fun t => hCMD t)
      simp only [store_pwm, nct6687_save_fan_control, hflag, eq_self_iff_true, if_true,
        Bool.false_eq_true, Bool.true_eq_false, if_false, List.cons_append, List.nil_append,
        List.singleton_append, ecRead, ecWrite, nct6687_get_pwm_enable, hbegin]
      rw [if_neg hguard]
      exact ⟨_, _, (f 0 (NCT6687_REG_FAN_CTRL_MODE index) % 256 ||| (1 <<< index) % 256) % 256,
        rfl, rfl, hbit _, ⟨1004, by simp [updFn]⟩, ⟨1005, by simp [updFn]⟩⟩

/-- C2: under the AlternateA map (msi_alt1) with the brute-force flag, for a
system-fan channel (index at or beyond 2) and a cooperative handshake
(engine status always 0x28, so begin takes its fast path), store_pwm issues
zero writes to the curve registers when the pwm-readback already equals the
requested duty — the full write trace is just the control-mode write and the
commit's done-command write — and otherwise exactly 7 writes at offsets
base+0, base+2, …, base+12 from the channel's pwm-write register, each
carrying the requested duty. -/
theorem C2_brute_force_curve_writes (f : Nat → Nat → Nat) (d : DevData) (index v c : Nat)
    (h2 : NCT6687_FIRST_SYSTEM_FAN_INDEX ≤ index) (h8 : index < NCT6687_NUM_REG_FAN)
    (hv : v ≤ 255)
    (hSTS : ∀ t, f t NCT6687_REG_FAN_ENGINE_STS % 256 = 0x28)
    (hc : ∀ t, f t (NCT6687_REG_PWM FanConfigType.msi_alt1 index) % 256 = c) :
    ∃ d' ec' m,
      store_pwm ⟨FanConfigType.msi_alt1, true, false⟩ d ⟨f, 0, []⟩ index (some v) =
        Except.ok (d', ec') ∧
      (c = v → ec'.writes = [(NCT6687_REG_FAN_CTRL_MODE index, m),
        (NCT6687_REG_FAN_PWM_COMMAND index, donecmdOf d.kind)]) ∧
      (c ≠ v → ec'.writes = [(NCT6687_REG_FAN_CTRL_MODE index, m),
        (NCT6687_REG_PWM_WRITE FanConfigType.msi_alt1 index, v),
        (NCT6687_REG_PWM_WRITE FanConfigType.msi_alt1 index + 2, v),
        (NCT6687_REG_PWM_WRITE FanConfigType.msi_alt1 index + 4, v),
        (NCT6687_REG_PWM_WRITE FanConfigType.msi_alt1 index + 6, v),
        (NCT6687_REG_PWM_WRITE FanConfigType.msi_alt1 index + 8, v),
        (NCT6687_REG_PWM_WRITE FanConfigType.msi_alt1 index + 10, v),
        (NCT6687_REG_PWM_WRITE FanConfigType.msi_alt1 index + 12, v),
        (NCT6687_REG_FAN_PWM_COMMAND index, donecmdOf d.kind)]) := by
  have hguard : ¬(255 < v ∨ NCT6687_NUM_REG_FAN ≤ index) := by
    have h : NCT6687_NUM_REG_FAN = 8 := rfl
    omega
  by_cases hcv : c = v
  · cases hflag : d.restoreRequired index with
    | false =>
      have hbegin := start_fast ⟨f, 3,
          [(NCT6687_REG_FAN_CTRL_MODE index, (f 2 (NCT6687_REG_FAN_CTRL_MODE index) % 256 ||| (1 <<< index) % 256) % 256)]⟩
        index (fun t => hSTS t)
      have hfinish := finish_fast d.kind ⟨f, 3 + 1 + 1,
          [(NCT6687_REG_FAN_CTRL_MODE index, (f 2 (NCT6687_REG_FAN_CTRL_MODE index) % 256 ||| (1 <<< index) % 256) % 256)]⟩
        index (fun t => hSTS t)
      simp only [store_pwm, nct6687_save_fan_control, hflag, eq_self_iff_true, if_true,
        Bool.false_eq_true, Bool.true_eq_false, if_false, and_true, true_and,
        List.cons_append, List.nil_append, List.singleton_append,
        ecRead, ecWrite, nct6687_get_pwm_enable, hbegin, hc]
      rw [if_neg hguard, if_pos h2]
      rw [if_neg (by simp [hcv])]
      simp only [List.cons_append, List.nil_append, List.singleton_append, hfinish]
      exact ⟨_, _, (f 2 (NCT6687_REG_FAN_CTRL_MODE index) % 256 ||| (1 <<< index) % 256) % 256,
        rfl, fun hyes => rfl, fun hne => absurd hcv hne⟩
    | true =>
      have hbegin := start_fast ⟨f, 1,
          [(NCT6687_REG_FAN_CTRL_MODE index, (f 0 (NCT6687_REG_FAN_CTRL_MODE index) % 256 ||| (1 <<< index) % 256) % 256)]⟩
        index (fun t => hSTS t)
      have hfinish := finish_fast d.kind ⟨f, 1 + 1 + 1,
          [(NCT6687_REG_FAN_CTRL_MODE index, (f 0 (NCT6687_REG_FAN_CTRL_MODE index) % 256 ||| (1 <<< index) % 256) % 256)]⟩
        index (fun t => hSTS t)
      simp only [store_pwm, nct6687_save_fan_control, hflag, eq_self_iff_true, if_true,
        Bool.false_eq_true, Bool.true_eq_false, if_false, and_true, true_and,
        List.cons_append, List.nil_append, List.singleton_append,
        ecRead, ecWrite, nct6687_get_pwm_enable, hbegin, hc]
      rw [if_neg hguard, if_pos h2]
      rw [if_neg (by simp [hcv])]
      simp only [List.cons_append, List.nil_append, List.singleton_append, hfinish]
      exact ⟨_, _, (f 0 (NCT6687_REG_FAN_CTRL_MODE index) % 256 ||| (1 <<< index) % 256) % 256,
        rfl, fun hyes => rfl, fun hne => absurd hcv hne⟩
  · cases hflag : d.restoreRequired index with
    | false =>
      have hbegin := start_fast ⟨f, 3,
          [(NCT6687_REG_FAN_CTRL_MODE index, (f 2 (NCT6687_REG_FAN_CTRL_MODE index) % 256 ||| (1 <<< index) % 256) % 256)]⟩
        index (fun t => hSTS t)
      have hfinish := finish_fast d.kind ⟨f, 3 + 1 + 1,
          [(NCT6687_REG_FAN_CTRL_MODE index, (f 2 (NCT6687_REG_FAN_CTRL_MODE index) % 256 ||| (1 <<< index) % 256) % 256),
           (NCT6687_REG_PWM_WRITE FanConfigType.msi_alt1 index, v),
           (NCT6687_REG_PWM_WRITE FanConfigType.msi_alt1 index + 2, v),
           (NCT6687_REG_PWM_WRITE FanConfigType.msi_alt1 index + 4, v),
           (NCT6687_REG_PWM_WRITE FanConfigType.msi_alt1 index + 6, v),
           (NCT6687_REG_PWM_WRITE FanConfigType.msi_alt1 index + 8, v),
           (NCT6687_REG_PWM_WRITE FanConfigType.msi_alt1 index + 10, v),
           (NCT6687_REG_PWM_WRITE FanConfigType.msi_alt1 index + 12, v)]⟩
        index (fun t => hSTS t)
      simp only [store_pwm, nct6687_save_fan_control, hflag, eq_self_iff_true, if_true,
        Bool.false_eq_true, Bool.true_eq_false, if_false, and_true, true_and,
        List.cons_append, List.nil_append, List.singleton_append,
        ecRead, ecWrite, nct6687_get_pwm_enable, hbegin, hc]
      rw [if_neg hguard, if_pos h2]
      rw [if_pos hcv]
      simp only [write_all_curve_spec, List.cons_append, List.nil_append, List.singleton_append, hfinish]
      exact ⟨_, _, (f 2 (NCT6687_REG_FAN_CTRL_MODE index) % 256 ||| (1 <<< index) % 256) % 256,
        rfl, fun hyes => absurd hyes hcv, fun hne => rfl⟩
    | true =>
      have hbegin := start_fast ⟨f, 1,
          [(NCT6687_REG_FAN_CTRL_MODE index, (f 0 (NCT6687_REG_FAN_CTRL_MODE index) % 256 ||| (1 <<< index) % 256) % 256)]⟩
        index (fun t => hSTS t)
      have hfinish := finish_fast d.kind ⟨f, 1 + 1 + 1,
          [(NCT6687_REG_FAN_CTRL_MODE index, (f 0 (NCT6687_REG_FAN_CTRL_MODE index) % 256 ||| (1 <<< index) % 256) % 256),
           (NCT6687_REG_PWM_WRITE FanConfigType.msi_alt1 index, v),
           (NCT6687_REG_PWM_WRITE FanConfigType.msi_alt1 index + 2, v),
           (NCT6687_REG_PWM_WRITE FanConfigType.msi_alt1 index + 4, v),
           (NCT6687_REG_PWM_WRITE FanConfigType.msi_alt1 index + 6, v),
           (NCT6687_REG_PWM_WRITE FanConfigType.msi_alt1 index + 8, v),
           (NCT6687_REG_PWM_WRITE FanConfigType.msi_alt1 index + 10, v),
           (NCT6687_REG_PWM_WRITE FanConfigType.msi_alt1 index + 12, v)]⟩
        index (fun t => hSTS t)
      simp only [store_pwm, nct6687_save_fan_control, hflag, eq_self_iff_true, if_true,
        Bool.false_eq_true, Bool.true_eq_false, if_false, and_true, true_and,
        List.cons_append, List.nil_append, List.singleton_append,
        ecRead, ecWrite, nct6687_get_pwm_enable, hbegin, hc]
      rw [if_neg hguard, if_pos h2]
      rw [if_pos hcv]
      simp only [write_all_curve_spec, List.cons_append, List.nil_append, List.singleton_append, hfinish]
      exact ⟨_, _, (f 0 (NCT6687_REG_FAN_CTRL_MODE index) % 256 ||| (1 <<< index) % 256) % 256,
        rfl, fun hyes => absurd hyes hcv, fun hne => rfl⟩

/-- A wedged device: the engine status always reads LOCK set and PHASE
clear, every other register reads 0. -/
def fWedged : Nat → Nat → Nat :=
  fun _ a => if a = NCT6687_REG_FAN_ENGINE_STS then 0x40 else 0

/-- A cooperative device: the engine status always reads 0x28 (PHASE and
CHECK_DONE set, LOCK clear), every other register reads 0. -/
def fCoop : Nat → Nat → Nat :=
  fun _ a => if a = NCT6687_REG_FAN_ENGINE_STS then 0x28 else 0

theorem C3_begin_timeout_no_pwm_write_witness :
    (∀ t w, (start_fan_cfg_update ⟨fWedged, t, w⟩ 0).1 = false) ∧
    ∃ d' ec' m,
      store_pwm ⟨FanConfigType.default, false, false⟩ dd0 ⟨fWedged, 0, []⟩ 0 (some 200) =
        Except.ok (d', ec') ∧
      ec'.writes = [(NCT6687_REG_FAN_CTRL_MODE 0, m),
        (NCT6687_REG_FAN_PWM_COMMAND 0, NCT6687_FAN_CFG_REQ)] ∧
      Nat.testBit m 0 = true ∧
      (∃ t1, d'.pwm 0 = fWedged t1 (NCT6687_REG_PWM FanConfigType.default 0) % 256) ∧
      (∃ t2, d'.pwm_enable 0 =
        if fWedged t2 (NCT6687_REG_FAN_CTRL_MODE 0) % 256 &&& (1 <<< 0) ≠ 0 then 1 else 99) :=
  C3_begin_timeout_no_pwm_write ⟨FanConfigType.default, false, false⟩ fWedged dd0 0 200
    (by decide) (by decide) (fun t => rfl) (fun t => rfl)

theorem C2_brute_force_curve_writes_witness :
    ∃ d' ec' m,
      store_pwm ⟨FanConfigType.msi_alt1, true, false⟩ dd0 ⟨fCoop, 0, []⟩ 2 (some 200) =
        Except.ok (d', ec') ∧
      ((0 : Nat) = 200 → ec'.writes = [(NCT6687_REG_FAN_CTRL_MODE 2, m),
        (NCT6687_REG_FAN_PWM_COMMAND 2, donecmdOf dd0.kind)]) ∧
      ((0 : Nat) ≠ 200 → ec'.writes = [(NCT6687_REG_FAN_CTRL_MODE 2, m),
        (NCT6687_REG_PWM_WRITE FanConfigType.msi_alt1 2, 200),
        (NCT6687_REG_PWM_WRITE FanConfigType.msi_alt1 2 + 2, 200),
        (NCT6687_REG_PWM_WRITE FanConfigType.msi_alt1 2 + 4, 200),
        (NCT6687_REG_PWM_WRITE FanConfigType.msi_alt1 2 + 6, 200),
        (NCT6687_REG_PWM_WRITE FanConfigType.msi_alt1 2 + 8, 200),
        (NCT6687_REG_PWM_WRITE FanConfigType.msi_alt1 2 + 10, 200),
        (NCT6687_REG_PWM_WRITE FanConfigType.msi_alt1 2 + 12, 200),
        (NCT6687_REG_FAN_PWM_COMMAND 2, donecmdOf dd0.kind)]) :=
  C2_brute_force_curve_writes fCoop dd0 2 200 0 (by decide) (by decide) (by decide)
    (fun t => rfl) (fun t => rfl)

/-- The pwm-write register traffic nct6687_restore_fan_control produces for
a channel: all 7 curve-point registers under the brute-force strategy, the
single pwm-write register otherwise (mirrors the branch in the source). -/
def expectedPwmWrites (cfg : Config) (index value : Nat) : List (Nat × Nat) :=
  if NCT6687_FIRST_SYSTEM_FAN_INDEX ≤ index ∧ cfg.fanType = FanConfigType.msi_alt1 ∧
      cfg.bruteForce = true then
    [(NCT6687_REG_PWM_WRITE cfg.fanType index, value),
     (NCT6687_REG_PWM_WRITE cfg.fanType index + 2, value),
     (NCT6687_REG_PWM_WRITE cfg.fanType index + 4, value),
     (NCT6687_REG_PWM_WRITE cfg.fanType index + 6, value),
     (NCT6687_REG_PWM_WRITE cfg.fanType index + 8, value),
     (NCT6687_REG_PWM_WRITE cfg.fanType index + 10, value),
     (NCT6687_REG_PWM_WRITE cfg.fanType index + 12, value)]
  else [(NCT6687_REG_PWM_WRITE cfg.fanType index, value)]

/-- C4: for a channel whose restore record is pending (restoreRequired) and
a cooperative handshake, teardown writes back the control-mode byte with the
channel's bit replaced by the saved bit, writes the saved PWM-command byte
through the handshake-wrapped pwm-write path (all 7 curve registers under
the brute-force strategy), commits, and clears the restore-needed flag; a
second teardown of the same channel performs no register access at all. -/
theorem C4_restore_then_noop (cfg : Config) (f : Nat → Nat → Nat) (d : DevData) (index : Nat)
    (h8 : index < NCT6687_NUM_REG_FAN) (hflag : d.restoreRequired index = true)
    (hSTS : ∀ t, f t NCT6687_REG_FAN_ENGINE_STS % 256 = 0x28) :
    ∃ d' ec',
      nct6687_restore_fan_control cfg d ⟨f, 0, []⟩ index = (d', ec') ∧
      ec'.writes = (NCT6687_REG_FAN_CTRL_MODE index,
          ((f 0 (NCT6687_REG_FAN_CTRL_MODE index) % 256 &&& (0xFF ^^^ (1 <<< index) % 256)) |||
            d.initialFanControlMode index) % 256) ::
        expectedPwmWrites cfg index (d.initialFanPwmCommand index) ++
        [(NCT6687_REG_FAN_PWM_COMMAND index, donecmdOf d.kind)] ∧
      d'.restoreRequired index = false ∧
      (∀ ec2, nct6687_restore_fan_control cfg d' ec2 index = (d', ec2)) := by
  by_cases hbr : NCT6687_FIRST_SYSTEM_FAN_INDEX ≤ index ∧
      cfg.fanType = FanConfigType.msi_alt1 ∧ cfg.bruteForce = true
  · have hbegin := start_fast ⟨f, 1,
        [(NCT6687_REG_FAN_CTRL_MODE index,
          ((f 0 (NCT6687_REG_FAN_CTRL_MODE index) % 256 &&& (0xFF ^^^ (1 <<< index) % 256)) |||
            d.initialFanControlMode index) % 256)]⟩
      index (fun t => hSTS t)
    have hfinish := finish_fast d.kind ⟨f, 1 + 1,
        [(NCT6687_REG_FAN_CTRL_MODE index,
          ((f 0 (NCT6687_REG_FAN_CTRL_MODE index) % 256 &&& (0xFF ^^^ (1 <<< index) % 256)) |||
            d.initialFanControlMode index) % 256),
         (NCT6687_REG_PWM_WRITE cfg.fanType index, d.initialFanPwmCommand index),
         (NCT6687_REG_PWM_WRITE cfg.fanType index + 2, d.initialFanPwmCommand index),
         (NCT6687_REG_PWM_WRITE cfg.fanType index + 4, d.initialFanPwmCommand index),
         (NCT6687_REG_PWM_WRITE cfg.fanType index + 6, d.initialFanPwmCommand index),
         (NCT6687_REG_PWM_WRITE cfg.fanType index + 8, d.initialFanPwmCommand index),
         (NCT6687_REG_PWM_WRITE cfg.fanType index + 10, d.initialFanPwmCommand index),
         (NCT6687_REG_PWM_WRITE cfg.fanType index + 12, d.initialFanPwmCommand index)]⟩
      index (fun t => hSTS t)
    simp only [nct6687_restore_fan_control, hflag, eq_self_iff_true, if_true,
      Bool.false_eq_true, Bool.true_eq_false, if_false,
      List.cons_append, List.nil_append, List.singleton_append,
      ecRead, ecWrite, hbegin]
    rw [if_pos hbr]
    simp only [write_all_curve_spec, List.cons_append, List.nil_append,
      List.singleton_append, hfinish]
    refine ⟨_, _, rfl, by simp [expectedPwmWrites, hbr], by simp [updFn], ?_⟩
    intro ec2
    simp [nct6687_restore_fan_control, updFn]
  · have hbegin := start_fast ⟨f, 1,
        [(NCT6687_REG_FAN_CTRL_MODE index,
          ((f 0 (NCT6687_REG_FAN_CTRL_MODE index) % 256 &&& (0xFF ^^^ (1 <<< index) % 256)) |||
            d.initialFanControlMode index) % 256)]⟩
      index (fun t => hSTS t)
    have hfinish := finish_fast d.kind ⟨f, 1 + 1,
        [(NCT6687_REG_FAN_CTRL_MODE index,
          ((f 0 (NCT6687_REG_FAN_CTRL_MODE index) % 256 &&& (0xFF ^^^ (1 <<< index) % 256)) |||
            d.initialFanControlMode index) % 256),
         (NCT6687_REG_PWM_WRITE cfg.fanType index, d.initialFanPwmCommand index)]⟩
      index (fun t => hSTS t)
    simp only [nct6687_restore_fan_control, hflag, eq_self_iff_true, if_true,
      Bool.false_eq_true, Bool.true_eq_false, if_false,
      List.cons_append, List.nil_append, List.singleton_append,
      ecRead, ecWrite, hbegin]
    rw [if_neg hbr]
    simp only [List.cons_append, List.nil_append, List.singleton_append, hfinish]
    refine ⟨_, _, rfl, by simp [expectedPwmWrites, hbr], by simp [updFn], ?_⟩
    intro ec2
    simp [nct6687_restore_fan_control, updFn]

/-- Device state with a pending restore record on every channel, used by
the C4 witness. -/
def ddR : DevData :=
  { dd0 with restoreRequired := fun _ => true,
             initialFanControlMode := fun _ => 1,
             initialFanPwmCommand := fun _ => 0x55 }

theorem C4_restore_then_noop_witness :
    ∃ d' ec',
      nct6687_restore_fan_control ⟨FanConfigType.default, false, false⟩ ddR ⟨fCoop, 0, []⟩ 0 =
        (d', ec') ∧
      ec'.writes = (NCT6687_REG_FAN_CTRL_MODE 0,
          ((fCoop 0 (NCT6687_REG_FAN_CTRL_MODE 0) % 256 &&& (0xFF ^^^ (1 <<< 0) % 256)) |||
            ddR.initialFanControlMode 0) % 256) ::
        expectedPwmWrites ⟨FanConfigType.default, false, false⟩ 0 (ddR.initialFanPwmCommand 0) ++
        [(NCT6687_REG_FAN_PWM_COMMAND 0, donecmdOf ddR.kind)] ∧
      d'.restoreRequired 0 = false ∧
      (∀ ec2, nct6687_restore_fan_control ⟨FanConfigType.default, false, false⟩ d' ec2 0 =
        (d', ec2)) :=
  C4_restore_then_noop ⟨FanConfigType.default, false, false⟩ fCoop ddR 0
    (by decide) (by decide) (fun t => rfl)

end Nct6687
